import Mathlib

/-!
# libiio: the leveled logging header `iio-debug.h`

A shallow embedding of `iio-debug.h` (the emission primitive `iio_prm_printf`,
the ownership-chain lookups `__ctx_params_or_null`, `__dev_ctx_or_null`,
`__chn_dev_or_null`, the entry points `prm_err` .. `chn_dbg` and the
errno-aware family `prm_perror` .. `chn_perror`), followed by theorems about
it.

Conventions of the embedding.
* A C pointer that may be `NULL` is an `Option`; `NULL` is `none`.
* `enum iio_log_level` values are integers, compared with `≤` as the C code
  compares them.
* The preprocessor definitions of the header are functions on comma-separated
  argument lists; an argument is a sequence of adjacent tokens, so that the
  juxtaposition `"ERROR: " __VA_ARGS__` is list concatenation and adjacent
  string literals are joined as the C translation phase 6 joins them.  An
  expansion that is not valid C is `none`.
* Effects are explicit: a `State` carries `errno` and the trace of `vfprintf`
  calls performed on streams.
-/

namespace IioDebug

/-! ## Data model -/

/-- A `FILE` object: the two process streams and any other open stream. -/
inductive Stream where
  | stderr : Stream
  | stdout : Stream
  | file (id : Nat) : Stream
  deriving DecidableEq, Repr

/-- The four fields of `struct iio_context_params` (declared in `iio.h`) that
the header reads.  `out` and `err` are `FILE *` and may be `NULL`. -/
structure iio_context_params where
  out : Option Stream
  err : Option Stream
  log_level : Int
  stderr_level : Int
  deriving DecidableEq, Repr

/-- The enumerators of `enum iio_log_level` (declared in `iio.h`) and the
constant `DEFAULT_LOG_LEVEL` (defined in `iio-config.h`) that the header uses.
Neither file is part of the sources at hand, so their numeric values are
parameters of the embedding. -/
structure Levels where
  LEVEL_ERROR : Int
  LEVEL_WARNING : Int
  LEVEL_INFO : Int
  LEVEL_DEBUG : Int
  DEFAULT_LOG_LEVEL : Int
  deriving DecidableEq, Repr

/-- Modelled from the spec: the ordering of the enumerators of
`enum iio_log_level`, whose declaration (`iio.h`) is not among the sources:
lower value, higher urgency, `error < warning < info < debug`. -/
def Levels.Ordered (k : Levels) : Prop :=
  k.LEVEL_ERROR < k.LEVEL_WARNING ∧ k.LEVEL_WARNING < k.LEVEL_INFO ∧
    k.LEVEL_INFO < k.LEVEL_DEBUG

instance (k : Levels) : Decidable k.Ordered :=
  inferInstanceAs (Decidable (_ ∧ _ ∧ _))

/-- A value passed through the variadic part of a call: a C string, a C `int`,
or a value of some other type (identified by a tag only). -/
inductive Arg where
  | str (s : String) : Arg
  | int (v : Int) : Arg
  | other (tag : Nat) : Arg
  deriving DecidableEq, Repr

/-- One call `vfprintf(out, fmt, ap)`. -/
structure vfprintf_call where
  out : Stream
  fmt : String
  ap : List Arg
  deriving DecidableEq, Repr

/-- The observable state: the last-error indicator and the stream writes
performed so far, oldest first. -/
structure State where
  errno : Int
  writes : List vfprintf_call
  deriving DecidableEq, Repr

/-- The external collaborators the header calls.  Handles of contexts, devices
and channels are natural numbers; the accessors are those of `iio.h`.
`iio_strerror code len` is the text the collaborator leaves in the buffer it
is handed, given the capacity `len`.  The two `_errno` fields are the value
the collaborator leaves in `errno`, given the value it found there. -/
structure Env where
  iio_context_get_params : Nat → Option iio_context_params
  iio_device_get_context : Nat → Option Nat
  iio_channel_get_device : Nat → Option Nat
  iio_strerror : Int → Nat → String
  iio_strerror_errno : Int → Nat → Int → Int
  vfprintf_errno : vfprintf_call → Int → Int

/-! ## The emission primitive -/

/-- The value of the local variable `out` of `iio_prm_printf` when line 50 is
reached (`FILE *out = NULL;` followed by the conditional of lines 41-48). -/
def iio_prm_printf_out (k : Levels) (params : Option iio_context_params)
    (msg_level : Int) : Option Stream :=
  match params with
  | some p =>
    if msg_level ≤ p.log_level then
      if msg_level ≤ p.stderr_level then
        some (match p.err with | some e => e | none => Stream.stderr)
      else
        some (match p.out with | some o => o | none => Stream.stdout)
    else none
  | none =>
    if msg_level ≤ k.DEFAULT_LOG_LEVEL then
      some (if msg_level ≤ k.LEVEL_WARNING then Stream.stderr else Stream.stdout)
    else none

/-- The library call `vfprintf(out, fmt, ap)`: one write on `out`, after which
`errno` is whatever the C library left there. -/
def vfprintf (env : Env) (out : Stream) (fmt : String) (ap : List Arg)
    (s : State) : State :=
  { errno := env.vfprintf_errno ⟨out, fmt, ap⟩ s.errno
    writes := s.writes ++ [⟨out, fmt, ap⟩] }

/-- The function `iio_prm_printf(params, msg_level, fmt, ...)`. -/
def iio_prm_printf (env : Env) (k : Levels) (params : Option iio_context_params)
    (msg_level : Int) (fmt : String) (ap : List Arg) (s : State) : State :=
  match iio_prm_printf_out k params msg_level with
  | some out => vfprintf env out fmt ap s
  | none => s

/-- The arguments of one call of `iio_prm_printf`. -/
structure iio_prm_printf_args where
  params : Option iio_context_params
  msg_level : Int
  fmt : String
  ap : List Arg
  deriving DecidableEq, Repr

/-- Performing a call of `iio_prm_printf`. -/
def iio_prm_printf_args.run (env : Env) (k : Levels) (c : iio_prm_printf_args)
    (s : State) : State :=
  iio_prm_printf env k c.params c.msg_level c.fmt c.ap s

/-! ## Formatted output

A model of the text the C library's `vfprintf` produces, for the conversions
the header itself uses (`%s`, `%u`) and for `%d` and `%%`.  Any other
conversion, and a conversion whose argument is missing or of another kind, has
no defined result here. -/

/-- An `int` read back as `unsigned int` (32 bits), as `%u` does. -/
def as_unsigned (v : Int) : Nat := (v % 4294967296).toNat

/-- The decimal digits of a natural number. -/
def decimal (n : Nat) : List Char := Nat.toDigits 10 n

/-- The text of `%d` for `v`. -/
def signed_decimal (v : Int) : List Char :=
  if v < 0 then '-' :: decimal v.natAbs else decimal v.natAbs

/-- Formatting `fmt` against the arguments `ap`: the text produced and the
arguments left over (excess arguments are ignored by `vfprintf`). -/
def format_output : List Char → List Arg → Option (List Char × List Arg)
  | [], ap => some ([], ap)
  | c :: fmt, ap =>
    if c = '%' then
      match fmt, ap with
      | d :: fmt, ap =>
        if d = '%' then
          (format_output fmt ap).map fun r => ('%' :: r.1, r.2)
        else if d = 's' then
          match ap with
          | Arg.str t :: ap => (format_output fmt ap).map fun r => (t.data ++ r.1, r.2)
          | _ => none
        else if d = 'u' then
          match ap with
          | Arg.int v :: ap =>
            (format_output fmt ap).map fun r => (decimal (as_unsigned v) ++ r.1, r.2)
          | _ => none
        else if d = 'd' then
          match ap with
          | Arg.int v :: ap =>
            (format_output fmt ap).map fun r => (signed_decimal v ++ r.1, r.2)
          | _ => none
        else none
      | [], _ => none
    else
      (format_output fmt ap).map fun r => (c :: r.1, r.2)

/-- The text a `vfprintf` call puts on its stream. -/
def vfprintf_call.text (c : vfprintf_call) : Option String :=
  (format_output c.fmt.data c.ap).map fun r => String.mk r.1

/-- The text of `fmt` formatted against exactly the arguments `ap`, none left
over. -/
def formats_to (fmt : String) (ap : List Arg) (text : String) : Prop :=
  format_output fmt.data ap = some (text.data, [])

instance (fmt : String) (ap : List Arg) (text : String) :
    Decidable (formats_to fmt ap text) :=
  inferInstanceAs (Decidable (_ = _))

/-! ## Ownership-chain lookups (lines 56-58) -/

/-- `__ctx_params_or_null(ctx)`: `((ctx) ? iio_context_get_params(ctx) : NULL)`. -/
def __ctx_params_or_null (env : Env) (ctx : Option Nat) : Option iio_context_params :=
  match ctx with
  | some c => env.iio_context_get_params c
  | none => none

/-- `__dev_ctx_or_null(dev)`: `((dev) ? iio_device_get_context(dev) : NULL)`. -/
def __dev_ctx_or_null (env : Env) (dev : Option Nat) : Option Nat :=
  match dev with
  | some d => env.iio_device_get_context d
  | none => none

/-- `__chn_dev_or_null(chn)`: `((chn) ? iio_channel_get_device(chn) : NULL)`. -/
def __chn_dev_or_null (env : Env) (chn : Option Nat) : Option Nat :=
  match chn with
  | some c => env.iio_channel_get_device c
  | none => none

/-! ## Preprocessor arguments -/

/-- A token of an argument: a string literal, or any other expression
(identified with its value). -/
inductive Atom where
  | lit (s : String) : Atom
  | expr (a : Arg) : Atom
  deriving DecidableEq, Repr

/-- One comma-separated argument: a sequence of adjacent tokens, possibly
empty. -/
abbrev Item := List Atom

/-- Adjacent string literals are concatenated; anything else in the sequence
is not valid C. -/
def lit_concat : List Atom → Option String
  | [] => some ""
  | Atom.lit s :: r => (lit_concat r).map fun t => s ++ t
  | Atom.expr _ :: _ => none

/-- The value of an argument as a C expression: a single expression, or a
non-empty run of string literals.  The empty argument has none. -/
def Item.value : Item → Option Arg
  | [] => none
  | [Atom.expr a] => some a
  | Atom.lit s :: r => (lit_concat r).map fun t => Arg.str (s ++ t)
  | Atom.expr _ :: _ :: _ => none

/-- The values of a list of arguments, when all of them have one. -/
def values : List Item → Option (List Arg)
  | [] => some []
  | i :: r =>
    match i.value, values r with
    | some a, some as => some (a :: as)
    | _, _ => none

/-- The text of `__VA_ARGS__` as a comma-separated list: an empty pack is one
empty argument. -/
def va_text : List Item → List Item
  | [] => [[]]
  | i :: r => i :: r

/-- The tokens `pre` written immediately before a comma-separated list: they
join its first argument. -/
def juxtapose (pre : Item) : List Item → List Item
  | [] => [pre]
  | i :: r => (pre ++ i) :: r

/-- `__FIRST(a, ...)` is `a`. -/
def __FIRST : List Item → Option Item
  | a :: _ => some a
  | [] => none

/-- `___OTHERS(a, ...)` is `a, __VA_ARGS__`. -/
def ___OTHERS : List Item → Option (List Item)
  | a :: va => some (a :: va_text va)
  | [] => none

/-- `__OTHERS(a, b, ...)` is `___OTHERS(a, __VA_ARGS__)`. -/
def __OTHERS : List Item → Option (List Item)
  | a :: _ :: va => ___OTHERS (a :: va_text va)
  | _ => none

/-- The call `iio_prm_printf(params, msg_level, items...)`: the first of the
remaining arguments is the format and must be a string, the others are the
variadic arguments.  `none` when the text is not a valid call. -/
def printf_call (params : Option iio_context_params) (msg_level : Int) :
    List Item → Option iio_prm_printf_args
  | [] => none
  | f :: rest =>
    match f.value, values rest with
    | some (Arg.str fmt), some ap => some ⟨params, msg_level, fmt, ap⟩
    | _, _ => none

/-! ## Entry points (lines 60-78)

Each is the call of `iio_prm_printf` it expands to. -/

/-- Line 60: `iio_prm_printf((prm), LEVEL_ERROR, "ERROR: " __VA_ARGS__)`. -/
def prm_err (k : Levels) (prm : Option iio_context_params) (va : List Item) :
    Option iio_prm_printf_args :=
  printf_call prm k.LEVEL_ERROR (juxtapose [Atom.lit "ERROR: "] (va_text va))

/-- Line 61: `iio_prm_printf((prm), LEVEL_WARNING, "WARNING: " __VA_ARGS__)`. -/
def prm_warn (k : Levels) (prm : Option iio_context_params) (va : List Item) :
    Option iio_prm_printf_args :=
  printf_call prm k.LEVEL_WARNING (juxtapose [Atom.lit "WARNING: "] (va_text va))

/-- Line 62: `iio_prm_printf((prm), LEVEL_INFO, __VA_ARGS__)`. -/
def prm_info (k : Levels) (prm : Option iio_context_params) (va : List Item) :
    Option iio_prm_printf_args :=
  printf_call prm k.LEVEL_INFO (va_text va)

/-- Line 63: `iio_prm_printf((prm), LEVEL_DEBUG, "DEBUG: " __VA_ARGS__)`. -/
def prm_dbg (k : Levels) (prm : Option iio_context_params) (va : List Item) :
    Option iio_prm_printf_args :=
  printf_call prm k.LEVEL_DEBUG (juxtapose [Atom.lit "DEBUG: "] (va_text va))

/-- Line 65:
`#define ctx_err(ctx, ...) prm_err(__ctx_params_or_null(ctx), __VA_ARGS__)`. -/
def ctx_err (env : Env) (k : Levels) (ctx : Option Nat) (va : List Item) :=
  prm_err k (__ctx_params_or_null env ctx) va

/-- Line 66:
`#define ctx_warn(ctx, ...) prm_warn(__ctx_params_or_null(ctx), __VA_ARGS__)`. -/
def ctx_warn (env : Env) (k : Levels) (ctx : Option Nat) (va : List Item) :=
  prm_warn k (__ctx_params_or_null env ctx) va

/-- Line 67:
`#define ctx_info(ctx, ...) prm_info(__ctx_params_or_null(ctx), __VA_ARGS__)`. -/
def ctx_info (env : Env) (k : Levels) (ctx : Option Nat) (va : List Item) :=
  prm_info k (__ctx_params_or_null env ctx) va

/-- Line 68:
`#define ctx_dbg(ctx, ...) prm_dbg(__ctx_params_or_null(ctx), __VA_ARGS__)`. -/
def ctx_dbg (env : Env) (k : Levels) (ctx : Option Nat) (va : List Item) :=
  prm_dbg k (__ctx_params_or_null env ctx) va

/-- Line 70:
`#define dev_err(dev, ...) ctx_err(__dev_ctx_or_null(dev), __VA_ARGS__)`. -/
def dev_err (env : Env) (k : Levels) (dev : Option Nat) (va : List Item) :=
  ctx_err env k (__dev_ctx_or_null env dev) va

/-- Line 71:
`#define dev_warn(dev, ...) ctx_warn(__dev_ctx_or_null(dev), __VA_ARGS__)`. -/
def dev_warn (env : Env) (k : Levels) (dev : Option Nat) (va : List Item) :=
  ctx_warn env k (__dev_ctx_or_null env dev) va

/-- Line 72:
`#define dev_info(dev, ...) ctx_info(__dev_ctx_or_null(dev), __VA_ARGS__)`. -/
def dev_info (env : Env) (k : Levels) (dev : Option Nat) (va : List Item) :=
  ctx_info env k (__dev_ctx_or_null env dev) va

/-- Line 73:
`#define dev_dbg(dev, ...) ctx_dbg(__dev_ctx_or_null(dev), __VA_ARGS__)`. -/
def dev_dbg (env : Env) (k : Levels) (dev : Option Nat) (va : List Item) :=
  ctx_dbg env k (__dev_ctx_or_null env dev) va

/-- Line 75:
`#define chn_err(chn, ...) dev_err(__chn_dev_or_null(chn), __VA_ARGS__)`. -/
def chn_err (env : Env) (k : Levels) (chn : Option Nat) (va : List Item) :=
  dev_err env k (__chn_dev_or_null env chn) va

/-- Line 76:
`#define chn_warn(chn, ...) dev_warn(__chn_dev_or_null(chn), __VA_ARGS__)`. -/
def chn_warn (env : Env) (k : Levels) (chn : Option Nat) (va : List Item) :=
  dev_warn env k (__chn_dev_or_null env chn) va

/-- Line 77:
`#define chn_info(chn, ...) dev_info(__chn_dev_or_null(chn), __VA_ARGS__)`. -/
def chn_info (env : Env) (k : Levels) (chn : Option Nat) (va : List Item) :=
  dev_info env k (__chn_dev_or_null env chn) va

/-- Line 78:
`#define chn_dbg(chn, ...) dev_dbg(__chn_dev_or_null(chn), __VA_ARGS__)`. -/
def chn_dbg (env : Env) (k : Levels) (chn : Option Nat) (va : List Item) :=
  dev_dbg env k (__chn_dev_or_null env chn) va

/-- Executing an entry point: the state after the call it expands to, `none`
when the expansion is not valid C. -/
def exec (env : Env) (k : Levels) (c : Option iio_prm_printf_args) (s : State) :
    Option State :=
  c.map fun a => a.run env k s

/-! ## The errno-aware family (lines 80-90) -/

/-- `sizeof(_buf)` for `char _buf[1024];`. -/
def _buf_size : Nat := 1024

/-- An `int` expression, which may have side effects when evaluated. -/
abbrev IntExpr := State → Int × State

/-- An expression without side effects. -/
def IntExpr.const (c : Int) : IntExpr := fun s => (c, s)

/-- Lines 84-85: the call
`prm_err(params, __FIRST(__VA_ARGS__, 0) __OTHERS(": %s (%u)\n",__VA_ARGS__, _buf), _err)`
given the values of `_err` and of the text in `_buf`. -/
def prm_perror_call (k : Levels) (params : Option iio_context_params) (_err : Int)
    (_buf : String) (va : List Item) : Option iio_prm_printf_args :=
  match __FIRST (va_text va ++ [[Atom.expr (Arg.int 0)]]),
      __OTHERS ([Atom.lit ": %s (%u)\n"] :: va_text va ++ [[Atom.expr (Arg.str _buf)]]) with
  | some first, some others =>
    prm_err k params (juxtapose first others ++ [[Atom.expr (Arg.int _err)]])
  | _, _ => none

/-- Lines 80-87: `prm_perror(params, err, ...)`.  The block evaluates `err`
into `_err`, has `iio_strerror` fill `_buf` with capacity `sizeof(_buf)`,
performs the `prm_err` call and finally assigns `errno`. -/
def prm_perror (env : Env) (k : Levels) (params : Option iio_context_params)
    (err : IntExpr) (va : List Item) (s : State) : Option State :=
  let (_err, s0) := err s
  let _buf := env.iio_strerror _err _buf_size
  let s1 : State := { s0 with errno := env.iio_strerror_errno _err _buf_size s0.errno }
  match prm_perror_call k params _err _buf va with
  | some c =>
    let s2 := c.run env k s1
    some { s2 with errno := _err }
  | none => none

/-- Line 88:
`#define ctx_perror(ctx, err, ...) prm_perror(__ctx_params_or_null(ctx), err, __VA_ARGS__)`. -/
def ctx_perror (env : Env) (k : Levels) (ctx : Option Nat) (err : IntExpr)
    (va : List Item) (s : State) : Option State :=
  prm_perror env k (__ctx_params_or_null env ctx) err va s

/-- Line 89:
`#define dev_perror(dev, err, ...) ctx_perror(__dev_ctx_or_null(dev), err, __VA_ARGS__)`. -/
def dev_perror (env : Env) (k : Levels) (dev : Option Nat) (err : IntExpr)
    (va : List Item) (s : State) : Option State :=
  ctx_perror env k (__dev_ctx_or_null env dev) err va s

/-- Line 90: `#define chn_perror(dev, err, ...) dev_perror(__chn_dev_or_null(chn), err, __VA_ARGS__)`.
The first parameter is named `dev` and does not occur in the body; the body
names `chn`, which is whatever object of that name is visible where the
expansion takes place (`scope_chn`; `none` when there is no such object, and
then the expansion does not compile). -/
def chn_perror (env : Env) (k : Levels) (scope_chn : Option (Option Nat))
    (_dev : Option Nat) (err : IntExpr) (va : List Item) (s : State) : Option State :=
  match scope_chn with
  | some chn => dev_perror env k (__chn_dev_or_null env chn) err va s
  | none => none

/-! ## Notions used to state the properties -/

/-- The error sink of a configuration: `err` if set, else the process
`stderr`. -/
def error_sink (C : iio_context_params) : Stream :=
  match C.err with
  | some e => e
  | none => Stream.stderr

/-- The standard sink of a configuration: `out` if set, else the process
`stdout`. -/
def standard_sink (C : iio_context_params) : Stream :=
  match C.out with
  | some o => o
  | none => Stream.stdout

/-- The state `s2` is the state `s1` after exactly one more write, of `fmt` and
`ap`, on the stream `out`. -/
def wrote_on (s1 s2 : State) (out : Stream) (fmt : String) (ap : List Arg) : Prop :=
  s2.writes = s1.writes ++ [⟨out, fmt, ap⟩]

instance (s1 s2 : State) (out : Stream) (fmt : String) (ap : List Arg) :
    Decidable (wrote_on s1 s2 out fmt ap) :=
  inferInstanceAs (Decidable (_ = _))

/-- Collaborators for concrete evaluations: context 1 carries a configuration,
device 2 belongs to context 1, channel 3 belongs to device 2, device 4 is
detached, channel 5 belongs to the detached device 4. -/
def sample_env : Env where
  iio_context_get_params := fun c =>
    if c = 1 then some ⟨none, some (Stream.file 7), 3, 2⟩ else none
  iio_device_get_context := fun d => if d = 2 then some 1 else none
  iio_channel_get_device := fun c =>
    if c = 3 then some 2 else if c = 5 then some 4 else none
  iio_strerror := fun code _ =>
    if code = 13 then "Permission denied"
    else if code = 2 then "No such file or directory"
    else "Unknown error"
  iio_strerror_errno := fun _ _ e => e
  vfprintf_errno := fun _ e => e

/-- Enumerator values for concrete evaluations: `2, 3, 4, 5`, with the default
level `LEVEL_INFO`. -/
def sample_levels : Levels := ⟨2, 3, 4, 5, 4⟩

/-- What an entry point is handed: a configuration pointer (`prm_*`), a
context (`ctx_*`), a device (`dev_*`) or a channel (`chn_*`), each possibly
`NULL`. -/
inductive Entity where
  | params (prm : Option iio_context_params) : Entity
  | context (ctx : Option Nat) : Entity
  | device (dev : Option Nat) : Entity
  | channel (chn : Option Nat) : Entity

/-- The four severities that have entry points. -/
inductive Severity where
  | err : Severity
  | warn : Severity
  | info : Severity
  | dbg : Severity
  deriving DecidableEq, Repr

/-- The enumerator an entry point of the given severity passes. -/
def Severity.level (k : Levels) : Severity → Int
  | Severity.err => k.LEVEL_ERROR
  | Severity.warn => k.LEVEL_WARNING
  | Severity.info => k.LEVEL_INFO
  | Severity.dbg => k.LEVEL_DEBUG

/-- The sixteen entry points of lines 60-78, indexed by entity kind and
severity. -/
def Entity.entry (env : Env) (k : Levels) :
    Severity → Entity → List Item → Option iio_prm_printf_args
  | Severity.err, Entity.params p => prm_err k p
  | Severity.warn, Entity.params p => prm_warn k p
  | Severity.info, Entity.params p => prm_info k p
  | Severity.dbg, Entity.params p => prm_dbg k p
  | Severity.err, Entity.context c => ctx_err env k c
  | Severity.warn, Entity.context c => ctx_warn env k c
  | Severity.info, Entity.context c => ctx_info env k c
  | Severity.dbg, Entity.context c => ctx_dbg env k c
  | Severity.err, Entity.device d => dev_err env k d
  | Severity.warn, Entity.device d => dev_warn env k d
  | Severity.info, Entity.device d => dev_info env k d
  | Severity.dbg, Entity.device d => dev_dbg env k d
  | Severity.err, Entity.channel c => chn_err env k c
  | Severity.warn, Entity.channel c => chn_warn env k c
  | Severity.info, Entity.channel c => chn_info env k c
  | Severity.dbg, Entity.channel c => chn_dbg env k c

/-- The configuration resolved from an entity: the chain of lookups of lines
56-58, as far as the entity's kind needs it. -/
def Entity.resolve (env : Env) : Entity → Option iio_context_params
  | Entity.params p => p
  | Entity.context c => __ctx_params_or_null env c
  | Entity.device d => __ctx_params_or_null env (__dev_ctx_or_null env d)
  | Entity.channel c =>
    __ctx_params_or_null env (__dev_ctx_or_null env (__chn_dev_or_null env c))

/-- Some hop of the ownership chain is absent: the entity itself is `NULL`, the
channel has no device, or the device has no context. -/
def Entity.broken (env : Env) : Entity → Prop
  | Entity.params p => p = none
  | Entity.context c => c = none
  | Entity.device d =>
    d = none ∨ ∃ D, d = some D ∧ env.iio_device_get_context D = none
  | Entity.channel c =>
    c = none ∨ (∃ E, c = some E ∧ env.iio_channel_get_device E = none) ∨
      ∃ E D, c = some E ∧ env.iio_channel_get_device E = some D ∧
        env.iio_device_get_context D = none

/-- The text of the latest write recorded in a state. -/
def State.last_text (s : State) : Option String :=
  match s.writes.getLast? with
  | some w => w.text
  | none => none

/-- The text `t` ends with the text `e`. -/
def ends_in (t e : String) : Prop := e.data <:+ t.data

instance (t e : String) : Decidable (ends_in t e) :=
  inferInstanceAs (Decidable (_ <:+ _))

/-- The writes a call of `iio_prm_printf` adds to the trace, given the value
`out` has at line 50: one `vfprintf` call when it is a stream, none when it is
`NULL`. -/
def emitted (out : Option Stream) (fmt : String) (ap : List Arg) : List vfprintf_call :=
  match out with
  | some o => [⟨o, fmt, ap⟩]
  | none => []

/-- The memory reachable through a `const struct iio_context_params *`: the
configuration objects, by address, next to the observable state. -/
structure Memory where
  configs : Nat → iio_context_params
  st : State

/-- The function `iio_prm_printf` (lines 31-54) with `params` as a pointer:
`NULL` or the address of a configuration object, each `params->field` being
read from memory where the code reads it. -/
def iio_prm_printf_ptr (env : Env) (k : Levels) (params : Option Nat) (msg_level : Int)
    (fmt : String) (ap : List Arg) (m : Memory) : Memory :=
  let out : Option Stream :=
    match params with
    | some a =>
      if msg_level ≤ (m.configs a).log_level then
        if msg_level ≤ (m.configs a).stderr_level then
          some (match (m.configs a).err with | some e => e | none => Stream.stderr)
        else
          some (match (m.configs a).out with | some o => o | none => Stream.stdout)
      else none
    | none =>
      if msg_level ≤ k.DEFAULT_LOG_LEVEL then
        some (if msg_level ≤ k.LEVEL_WARNING then Stream.stderr else Stream.stdout)
      else none
  match out with
  | some o => { m with st := vfprintf env o fmt ap m.st }
  | none => m

/-- The number of bytes a text occupies in a `char` buffer: one per character
and the terminating `NUL`. -/
def stored_bytes (t : String) : Nat := t.length + 1

/-- Collaborators for concrete evaluations that behave as badly as they may:
`iio_strerror` has a description of 5000 characters for every code and
truncates it to the capacity it is given, and both it and `vfprintf` overwrite
`errno`. -/
def clobbering_env : Env where
  iio_context_get_params := sample_env.iio_context_get_params
  iio_device_get_context := sample_env.iio_device_get_context
  iio_channel_get_device := sample_env.iio_channel_get_device
  iio_strerror := fun _ len => String.mk ((List.replicate 5000 'x').take (len - 1))
  iio_strerror_errno := fun _ _ _ => 34
  vfprintf_errno := fun _ _ => 9

/-! ## Auxiliary lemmas -/

theorem vfprintf_writes (env : Env) (out : Stream) (fmt : String) (ap : List Arg)
    (s : State) : (vfprintf env out fmt ap s).writes = s.writes ++ [⟨out, fmt, ap⟩] :=
  rfl

theorem vfprintf_ne (env : Env) (out : Stream) (fmt : String) (ap : List Arg)
    (s : State) : vfprintf env out fmt ap s ≠ s := by
  intro h
  have h2 := congrArg (fun t => t.writes.length) h
  simp [vfprintf] at h2

theorem iio_prm_printf_of_out (env : Env) (k : Levels) (params : Option iio_context_params)
    (S : Int) (fmt : String) (ap : List Arg) (s : State) (o : Stream)
    (h : iio_prm_printf_out k params S = some o) :
    iio_prm_printf env k params S fmt ap s = vfprintf env o fmt ap s := by
  simp [iio_prm_printf, h]

theorem iio_prm_printf_of_none (env : Env) (k : Levels) (params : Option iio_context_params)
    (S : Int) (fmt : String) (ap : List Arg) (s : State)
    (h : iio_prm_printf_out k params S = none) :
    iio_prm_printf env k params S fmt ap s = s := by
  simp [iio_prm_printf, h]

theorem wrote_on_iff (env : Env) (k : Levels) (params : Option iio_context_params)
    (S : Int) (fmt : String) (ap : List Arg) (s : State) (o : Stream) :
    wrote_on s (iio_prm_printf env k params S fmt ap s) o fmt ap ↔
      iio_prm_printf_out k params S = some o := by
  unfold wrote_on
  cases h : iio_prm_printf_out k params S with
  | none => simp [iio_prm_printf_of_none env k params S fmt ap s h]
  | some o2 =>
    rw [iio_prm_printf_of_out env k params S fmt ap s o2 h, vfprintf_writes]
    simp

theorem out_present (k : Levels) (C : iio_context_params) (S : Int) :
    iio_prm_printf_out k (some C) S =
      if S ≤ C.log_level then
        some (if S ≤ C.stderr_level then error_sink C else standard_sink C)
      else none := by
  simp only [iio_prm_printf_out, error_sink, standard_sink]
  by_cases h1 : S ≤ C.log_level <;> by_cases h2 : S ≤ C.stderr_level <;> simp [h1, h2]

theorem printf_call_params (p : Option iio_context_params) (l : Int) (items : List Item)
    (c : iio_prm_printf_args) (h : printf_call p l items = some c) :
    c.params = p ∧ c.msg_level = l := by
  cases items with
  | nil => simp [printf_call] at h
  | cons f rest =>
    simp only [printf_call] at h
    split at h
    · cases h; exact ⟨rfl, rfl⟩
    · cases h

theorem entry_via_resolve (env : Env) (k : Levels) (sev : Severity) (e : Entity)
    (va : List Item) :
    Entity.entry env k sev e va =
      Entity.entry env k sev (Entity.params (e.resolve env)) va := by
  cases e <;> cases sev <;> rfl

theorem resolve_of_broken (env : Env) (e : Entity) (h : e.broken env) :
    e.resolve env = none := by
  cases e with
  | params p => exact h
  | context c =>
    have hc : c = none := h
    subst hc; rfl
  | device d =>
    rcases h with h | ⟨D, hd, hD⟩
    · subst h; rfl
    · subst hd
      simp [Entity.resolve, __dev_ctx_or_null, __ctx_params_or_null, hD]
  | channel c =>
    rcases h with h | ⟨E, hc, hE⟩ | ⟨E, D, hc, hE, hD⟩
    · subst h; rfl
    · subst hc
      simp [Entity.resolve, __chn_dev_or_null, __dev_ctx_or_null, __ctx_params_or_null, hE]
    · subst hc
      simp [Entity.resolve, __chn_dev_or_null, __dev_ctx_or_null, __ctx_params_or_null,
        hE, hD]

theorem entry_params_level (env : Env) (k : Levels) (sev : Severity) (e : Entity)
    (va : List Item) (c : iio_prm_printf_args)
    (h : Entity.entry env k sev e va = some c) :
    c.params = e.resolve env ∧ c.msg_level = sev.level k := by
  rw [entry_via_resolve] at h
  cases sev <;>
    simp only [Entity.entry, prm_err, prm_warn, prm_info, prm_dbg] at h <;>
    exact printf_call_params _ _ _ _ h

theorem lit_first_value (t F : String) :
    Item.value ([Atom.lit t] ++ [Atom.lit F]) = some (Arg.str (t ++ F)) := by
  simp [Item.value, lit_concat]

theorem printf_call_lit (p : Option iio_context_params) (l : Int) (f : Item) (fmt : String)
    (A : List Item) (ap : List Arg) (hf : f.value = some (Arg.str fmt))
    (hA : values A = some ap) :
    printf_call p l (f :: A) = some ⟨p, l, fmt, ap⟩ := by
  simp [printf_call, hf, hA]

/-! ## The emission primitive: filtering and routing -/

/-- C1: with a configuration `C` present, `iio_prm_printf` performs its write
exactly when `S ≤ C.log_level`, leaves the state untouched exactly when not,
and the outcome does not depend on `DEFAULT_LOG_LEVEL` or on any other
enumerator value. -/
theorem iio_prm_printf_present_filter (env : Env) (k : Levels) (C : iio_context_params)
    (S : Int) (fmt : String) (ap : List Arg) (s : State) :
    ((∃ o, wrote_on s (iio_prm_printf env k (some C) S fmt ap s) o fmt ap) ↔
        S ≤ C.log_level) ∧
      (iio_prm_printf env k (some C) S fmt ap s = s ↔ ¬ S ≤ C.log_level) ∧
      ∀ k2 : Levels, iio_prm_printf env k2 (some C) S fmt ap s =
        iio_prm_printf env k (some C) S fmt ap s := by
  refine ⟨?_, ?_, ?_⟩
  · simp only [wrote_on_iff, out_present]
    by_cases h : S ≤ C.log_level <;> simp [h]
  · by_cases h : S ≤ C.log_level
    · have ho := out_present k C S
      rw [if_pos h] at ho
      rw [iio_prm_printf_of_out env k _ S fmt ap s _ ho]
      simp [h, vfprintf_ne]
    · have ho := out_present k C S
      rw [if_neg h] at ho
      simp [h, iio_prm_printf_of_none env k _ S fmt ap s ho]
  · intro k2
    simp [iio_prm_printf, out_present]

/-- C2, as amended: with a configuration `C` present and a severity `S` that is
emitted (`S ≤ C.log_level`), the one write goes to the error sink of `C` when
`S ≤ C.stderr_level` and to the standard sink of `C` otherwise; when the two
sinks are different streams, the write is on the error sink if and only if
`S ≤ C.stderr_level`. -/
theorem iio_prm_printf_present_route (env : Env) (k : Levels) (C : iio_context_params)
    (S : Int) (fmt : String) (ap : List Arg) (s : State) (hS : S ≤ C.log_level) :
    (S ≤ C.stderr_level →
        wrote_on s (iio_prm_printf env k (some C) S fmt ap s) (error_sink C) fmt ap) ∧
      (¬ S ≤ C.stderr_level →
        wrote_on s (iio_prm_printf env k (some C) S fmt ap s) (standard_sink C) fmt ap) ∧
      (error_sink C ≠ standard_sink C →
        (wrote_on s (iio_prm_printf env k (some C) S fmt ap s) (error_sink C) fmt ap ↔
          S ≤ C.stderr_level)) := by
  simp only [wrote_on_iff, out_present, if_pos hS]
  refine ⟨?_, ?_, ?_⟩
  · intro h; simp [h]
  · intro h; simp [h]
  · intro hne
    by_cases h : S ≤ C.stderr_level
    · simp [h]
    · simp only [h, if_false, iff_false]
      intro e
      exact hne (Option.some.inj e).symm

/-- Witness for C2: a warning (3) under a configuration with `log_level` 5,
`stderr_level` 3, `err` set to stream 7 and `out` unset is written on stream
7. -/
theorem iio_prm_printf_present_route_witness :
    (3 : Int) ≤ (iio_context_params.mk none (some (Stream.file 7)) 5 3).log_level ∧
      wrote_on ⟨0, []⟩
        (iio_prm_printf sample_env sample_levels
          (some (iio_context_params.mk none (some (Stream.file 7)) 5 3)) 3 "x" [] ⟨0, []⟩)
        (Stream.file 7) "x" [] :=
  ⟨by decide,
    (iio_prm_printf_present_route sample_env sample_levels
      (iio_context_params.mk none (some (Stream.file 7)) 5 3) 3 "x" [] ⟨0, []⟩
      (by decide)).1 (by decide)⟩

/-- Counterexample to C2 as stated: under a configuration whose `err` and `out`
are both stream 7, with `log_level` 5 and `stderr_level` 3, an info message (4)
is emitted and written on the error sink of the configuration although
`4 ≤ 3` fails, so "on the error sink if and only if `S ≤ C.stderr_level`" does
not hold there. -/
theorem iio_prm_printf_same_sinks :
    (4 : Int) ≤
        (iio_context_params.mk (some (Stream.file 7)) (some (Stream.file 7)) 5 3).log_level ∧
      error_sink (iio_context_params.mk (some (Stream.file 7)) (some (Stream.file 7)) 5 3) =
        Stream.file 7 ∧
      wrote_on ⟨0, []⟩
        (iio_prm_printf sample_env sample_levels
          (some (iio_context_params.mk (some (Stream.file 7)) (some (Stream.file 7)) 5 3))
          4 "x" [] ⟨0, []⟩)
        (error_sink (iio_context_params.mk (some (Stream.file 7)) (some (Stream.file 7)) 5 3))
        "x" [] ∧
      ¬ (4 : Int) ≤
        (iio_context_params.mk (some (Stream.file 7)) (some (Stream.file 7)) 5 3).stderr_level ∧
      ¬ (wrote_on ⟨0, []⟩
          (iio_prm_printf sample_env sample_levels
            (some (iio_context_params.mk (some (Stream.file 7)) (some (Stream.file 7)) 5 3))
            4 "x" [] ⟨0, []⟩)
          (error_sink (iio_context_params.mk (some (Stream.file 7)) (some (Stream.file 7)) 5 3))
          "x" [] ↔
        (4 : Int) ≤
          (iio_context_params.mk (some (Stream.file 7)) (some (Stream.file 7)) 5 3).stderr_level) := by
  decide

theorem out_absent (k : Levels) (S : Int) :
    iio_prm_printf_out k none S =
      if S ≤ k.DEFAULT_LOG_LEVEL then
        some (if S ≤ k.LEVEL_WARNING then Stream.stderr else Stream.stdout)
      else none := rfl

/-- C3: without a configuration, `iio_prm_printf` performs its write exactly
when `S ≤ DEFAULT_LOG_LEVEL` and leaves the state untouched exactly when not;
with the enumerators ordered `error < warning < info < debug`, an emitted
error or warning is written on the process `stderr` and an emitted info or
debug message on the process `stdout`. -/
theorem iio_prm_printf_absent (env : Env) (k : Levels) (S : Int) (fmt : String)
    (ap : List Arg) (s : State) (hk : k.Ordered) :
    ((∃ o, wrote_on s (iio_prm_printf env k none S fmt ap s) o fmt ap) ↔
        S ≤ k.DEFAULT_LOG_LEVEL) ∧
      (iio_prm_printf env k none S fmt ap s = s ↔ ¬ S ≤ k.DEFAULT_LOG_LEVEL) ∧
      (S ≤ k.DEFAULT_LOG_LEVEL → (S = k.LEVEL_ERROR ∨ S = k.LEVEL_WARNING) →
        wrote_on s (iio_prm_printf env k none S fmt ap s) Stream.stderr fmt ap) ∧
      (S ≤ k.DEFAULT_LOG_LEVEL → (S = k.LEVEL_INFO ∨ S = k.LEVEL_DEBUG) →
        wrote_on s (iio_prm_printf env k none S fmt ap s) Stream.stdout fmt ap) := by
  obtain ⟨h1, h2, h3⟩ := hk
  refine ⟨?_, ?_, ?_, ?_⟩
  · simp only [wrote_on_iff, out_absent]
    by_cases h : S ≤ k.DEFAULT_LOG_LEVEL <;> simp [h]
  · have ho := out_absent k S
    by_cases h : S ≤ k.DEFAULT_LOG_LEVEL
    · rw [if_pos h] at ho
      rw [iio_prm_printf_of_out env k _ S fmt ap s _ ho]
      simp [h, vfprintf_ne]
    · rw [if_neg h] at ho
      simp [h, iio_prm_printf_of_none env k _ S fmt ap s ho]
  · intro hS hlev
    have hw : S ≤ k.LEVEL_WARNING := by
      rcases hlev with e | e <;> omega
    simp [wrote_on_iff, out_absent, hS, hw]
  · intro hS hlev
    have hw : ¬ S ≤ k.LEVEL_WARNING := by
      rcases hlev with e | e <;> omega
    simp [wrote_on_iff, out_absent, hS, hw]

/-- Witness for C3: with the enumerators `2, 3, 4, 5` and the default level
`LEVEL_INFO`, an info message without configuration is written on `stdout`. -/
theorem iio_prm_printf_absent_witness :
    sample_levels.Ordered ∧
      wrote_on ⟨0, []⟩ (iio_prm_printf sample_env sample_levels none 4 "x" [] ⟨0, []⟩)
        Stream.stdout "x" [] :=
  ⟨by decide,
    (iio_prm_printf_absent sample_env sample_levels 4 "x" [] ⟨0, []⟩ (by decide)).2.2.2
      (by decide) (Or.inl rfl)⟩

/-! ## Ownership-chain resolution and the entry points -/

/-- C4: for a channel `E` whose device `D` is present and whose device's
context `X` is present, the three lookups resolve to `iio_context_get_params(X)`,
each of `chn_err`, `chn_warn`, `chn_info`, `chn_dbg` is the corresponding
`prm_*` call on that configuration, and the call made to `iio_prm_printf`
carries exactly that configuration. -/
theorem chn_resolves_to_context_params (env : Env) (k : Levels) (E D X : Nat)
    (hD : env.iio_channel_get_device E = some D)
    (hX : env.iio_device_get_context D = some X) :
    __ctx_params_or_null env (__dev_ctx_or_null env (__chn_dev_or_null env (some E))) =
        env.iio_context_get_params X ∧
      ∀ va : List Item,
        chn_err env k (some E) va = prm_err k (env.iio_context_get_params X) va ∧
        chn_warn env k (some E) va = prm_warn k (env.iio_context_get_params X) va ∧
        chn_info env k (some E) va = prm_info k (env.iio_context_get_params X) va ∧
        chn_dbg env k (some E) va = prm_dbg k (env.iio_context_get_params X) va ∧
        ∀ (sev : Severity) (c : iio_prm_printf_args),
          Entity.entry env k sev (Entity.channel (some E)) va = some c →
            c.params = env.iio_context_get_params X := by
  have hr : __ctx_params_or_null env (__dev_ctx_or_null env (__chn_dev_or_null env (some E))) =
      env.iio_context_get_params X := by
    simp [__chn_dev_or_null, __dev_ctx_or_null, __ctx_params_or_null, hD, hX]
  refine ⟨hr, fun va => ⟨?_, ?_, ?_, ?_, ?_⟩⟩
  · simp only [chn_err, dev_err, ctx_err, hr]
  · simp only [chn_warn, dev_warn, ctx_warn, hr]
  · simp only [chn_info, dev_info, ctx_info, hr]
  · simp only [chn_dbg, dev_dbg, ctx_dbg, hr]
  · intro sev c hc
    cases sev <;>
      simp only [Entity.entry, chn_err, dev_err, ctx_err, chn_warn, dev_warn, ctx_warn,
        chn_info, dev_info, ctx_info, chn_dbg, dev_dbg, ctx_dbg, prm_err, prm_warn,
        prm_info, prm_dbg, hr] at hc <;>
      exact (printf_call_params _ _ _ _ hc).1

/-- Witness for C4: in the sample collaborators channel 3 belongs to device 2,
which belongs to context 1, so the lookups from channel 3 yield the
configuration of context 1. -/
theorem chn_resolves_to_context_params_witness :
    sample_env.iio_channel_get_device 3 = some 2 ∧
      sample_env.iio_device_get_context 2 = some 1 ∧
      __ctx_params_or_null sample_env
          (__dev_ctx_or_null sample_env (__chn_dev_or_null sample_env (some 3))) =
        sample_env.iio_context_get_params 1 :=
  ⟨rfl, rfl, (chn_resolves_to_context_params sample_env sample_levels 3 2 1 rfl rfl).1⟩

/-- C5: for an entity with an absent hop (the entity itself `NULL`, the
channel without device, the device without context) the resolved configuration
is `NULL`; every entry point on it is the same call as the `prm_*` entry point
on `NULL`, so the decision and destination are those of `iio_prm_printf`
without configuration: emitted iff the severity is `≤ DEFAULT_LOG_LEVEL`, on
`stderr` when the severity is `≤ LEVEL_WARNING` and on `stdout` otherwise. -/
theorem broken_chain_uses_defaults (env : Env) (k : Levels) (e : Entity)
    (h : e.broken env) :
    e.resolve env = none ∧
      ∀ (sev : Severity) (va : List Item),
        Entity.entry env k sev e va = Entity.entry env k sev (Entity.params none) va ∧
        ∀ c : iio_prm_printf_args, Entity.entry env k sev e va = some c →
          c.params = none ∧ c.msg_level = sev.level k ∧
          iio_prm_printf_out k c.params c.msg_level =
            (if sev.level k ≤ k.DEFAULT_LOG_LEVEL then
              some (if sev.level k ≤ k.LEVEL_WARNING then Stream.stderr else Stream.stdout)
            else none) ∧
          ∀ s : State, c.run env k s = iio_prm_printf env k none (sev.level k) c.fmt c.ap s := by
  have hr := resolve_of_broken env e h
  refine ⟨hr, fun sev va => ⟨?_, ?_⟩⟩
  · rw [entry_via_resolve, hr]
  · intro c hc
    obtain ⟨hp, hl⟩ := entry_params_level env k sev e va c hc
    rw [hr] at hp
    refine ⟨hp, hl, ?_, ?_⟩
    · rw [hp, hl]; rfl
    · intro s
      simp only [iio_prm_printf_args.run, hp, hl]

/-- Witness for C5: in the sample collaborators channel 5 belongs to device 4,
which has no context; the configuration resolved from channel 5 is `NULL`. -/
theorem broken_chain_uses_defaults_witness :
    Entity.broken sample_env (Entity.channel (some 5)) ∧
      Entity.resolve sample_env (Entity.channel (some 5)) = none :=
  ⟨Or.inr (Or.inr ⟨5, 4, rfl, rfl, rfl⟩),
    (broken_chain_uses_defaults sample_env sample_levels (Entity.channel (some 5))
      (Or.inr (Or.inr ⟨5, 4, rfl, rfl, rfl⟩))).1⟩

/-- C6: every entry point of every kind (`prm`, `ctx`, `dev`, `chn`) is the
call of `iio_prm_printf` with the configuration resolved from its entity and
with the enumerator of its severity (`LEVEL_ERROR`, `LEVEL_WARNING`,
`LEVEL_INFO`, `LEVEL_DEBUG`), and with a format literal and arguments that
have values such a call exists.  The configuration resolved is given by the
accessors: the pointer itself for `prm`; `iio_context_get_params(X)` for a
context `X`; that of `iio_device_get_context(D)` for a device `D`; that of
`iio_channel_get_device(E)` for a channel `E`; `NULL` for a `NULL` entity or
an absent owner.  For a present channel `E`, `chn_X(E, ...)` is the same call,
with the same effect, as `dev_X` on the device of `E`; for a present device
`D`, `dev_X(D, ...)` is the same as `ctx_X` on the context of `D`; and for a
present context `X`, `ctx_X(X, ...)` is the same as `prm_X` on the
configuration of `X`. -/
theorem entry_points_compose (env : Env) (k : Levels) (e : Entity) (sev : Severity)
    (va : List Item) :
    Entity.entry env k sev e va =
        Entity.entry env k sev (Entity.params (e.resolve env)) va ∧
      (∀ c : iio_prm_printf_args, Entity.entry env k sev e va = some c →
        c.params = e.resolve env ∧ c.msg_level = sev.level k ∧
        ∀ s : State,
          c.run env k s = iio_prm_printf env k (e.resolve env) (sev.level k) c.fmt c.ap s) ∧
      (∀ D : Nat,
        dev_err env k (some D) va = ctx_err env k (env.iio_device_get_context D) va ∧
        dev_warn env k (some D) va = ctx_warn env k (env.iio_device_get_context D) va ∧
        dev_info env k (some D) va = ctx_info env k (env.iio_device_get_context D) va ∧
        dev_dbg env k (some D) va = ctx_dbg env k (env.iio_device_get_context D) va ∧
        ∀ s : State,
          exec env k (Entity.entry env k sev (Entity.device (some D)) va) s =
            exec env k
              (Entity.entry env k sev (Entity.context (env.iio_device_get_context D)) va) s) ∧
      (∀ X : Nat,
        ctx_err env k (some X) va = prm_err k (env.iio_context_get_params X) va ∧
        ctx_warn env k (some X) va = prm_warn k (env.iio_context_get_params X) va ∧
        ctx_info env k (some X) va = prm_info k (env.iio_context_get_params X) va ∧
        ctx_dbg env k (some X) va = prm_dbg k (env.iio_context_get_params X) va ∧
        ∀ s : State,
          exec env k (Entity.entry env k sev (Entity.context (some X)) va) s =
            exec env k
              (Entity.entry env k sev (Entity.params (env.iio_context_get_params X)) va) s) ∧
      (∀ E : Nat,
        chn_err env k (some E) va = dev_err env k (env.iio_channel_get_device E) va ∧
        chn_warn env k (some E) va = dev_warn env k (env.iio_channel_get_device E) va ∧
        chn_info env k (some E) va = dev_info env k (env.iio_channel_get_device E) va ∧
        chn_dbg env k (some E) va = dev_dbg env k (env.iio_channel_get_device E) va ∧
        ∀ s : State,
          exec env k (Entity.entry env k sev (Entity.channel (some E)) va) s =
            exec env k
              (Entity.entry env k sev (Entity.device (env.iio_channel_get_device E)) va) s) ∧
      (∀ p : Option iio_context_params, Entity.resolve env (Entity.params p) = p) ∧
      (Entity.resolve env (Entity.context none) = none ∧
        ∀ X : Nat,
          Entity.resolve env (Entity.context (some X)) = env.iio_context_get_params X) ∧
      (Entity.resolve env (Entity.device none) = none ∧
        ∀ D : Nat,
          Entity.resolve env (Entity.device (some D)) =
            (env.iio_device_get_context D).bind env.iio_context_get_params) ∧
      (Entity.resolve env (Entity.channel none) = none ∧
        ∀ E : Nat,
          Entity.resolve env (Entity.channel (some E)) =
            (env.iio_channel_get_device E).bind fun D =>
              (env.iio_device_get_context D).bind env.iio_context_get_params) ∧
      (∀ (F : String) (A : List Item) (ap : List Arg),
        va = [Atom.lit F] :: A → values A = some ap →
          ∃ c : iio_prm_printf_args, Entity.entry env k sev e va = some c ∧
            c.params = e.resolve env ∧ c.msg_level = sev.level k ∧ c.ap = ap) := by
  refine ⟨entry_via_resolve env k sev e va, ?_, ?_, ?_, ?_, fun _ => rfl, ⟨rfl, fun _ => rfl⟩,
    ⟨rfl, ?_⟩, ⟨rfl, ?_⟩, ?_⟩
  · intro c hc
    obtain ⟨hp, hl⟩ := entry_params_level env k sev e va c hc
    refine ⟨hp, hl, fun s => ?_⟩
    simp only [iio_prm_printf_args.run, hp, hl]
  · intro D
    refine ⟨rfl, rfl, rfl, rfl, fun s => ?_⟩
    cases sev <;> rfl
  · intro X
    refine ⟨rfl, rfl, rfl, rfl, fun s => ?_⟩
    cases sev <;> rfl
  · intro E
    refine ⟨rfl, rfl, rfl, rfl, fun s => ?_⟩
    cases sev <;> rfl
  · intro D
    simp only [Entity.resolve, __dev_ctx_or_null, __ctx_params_or_null]
    cases env.iio_device_get_context D <;> rfl
  · intro E
    simp only [Entity.resolve, __chn_dev_or_null, __dev_ctx_or_null, __ctx_params_or_null]
    cases hE : env.iio_channel_get_device E with
    | none => rfl
    | some D =>
      cases hD : env.iio_device_get_context D with
      | none => simp [hD]
      | some X => simp [hD]
  · intro F A ap hva hA
    subst hva
    rw [entry_via_resolve]
    cases sev
    · exact ⟨_, printf_call_lit _ _ _ _ A ap (lit_first_value "ERROR: " F) hA, rfl, rfl, rfl⟩
    · exact ⟨_, printf_call_lit _ _ _ _ A ap (lit_first_value "WARNING: " F) hA, rfl, rfl, rfl⟩
    · exact ⟨_, printf_call_lit _ _ _ F A ap (by simp [Item.value, lit_concat]) hA,
        rfl, rfl, rfl⟩
    · exact ⟨_, printf_call_lit _ _ _ _ A ap (lit_first_value "DEBUG: " F) hA, rfl, rfl, rfl⟩

/-- C7: for every entity kind, a caller format `F` (a string literal) and
further arguments with values `ap`, the call made to `iio_prm_printf` has the
format `"ERROR: " ++ F` from the error entry point, `"WARNING: " ++ F` from the
warning entry point, `"DEBUG: " ++ F` from the debug entry point and `F` itself
from the info entry point, with the arguments `ap` unchanged. -/
theorem entry_points_tag (env : Env) (k : Levels) (e : Entity) (F : String)
    (A : List Item) (ap : List Arg) (hA : values A = some ap) :
    Entity.entry env k Severity.err e ([Atom.lit F] :: A) =
        some ⟨e.resolve env, k.LEVEL_ERROR, "ERROR: " ++ F, ap⟩ ∧
      Entity.entry env k Severity.warn e ([Atom.lit F] :: A) =
        some ⟨e.resolve env, k.LEVEL_WARNING, "WARNING: " ++ F, ap⟩ ∧
      Entity.entry env k Severity.dbg e ([Atom.lit F] :: A) =
        some ⟨e.resolve env, k.LEVEL_DEBUG, "DEBUG: " ++ F, ap⟩ ∧
      Entity.entry env k Severity.info e ([Atom.lit F] :: A) =
        some ⟨e.resolve env, k.LEVEL_INFO, F, ap⟩ := by
  refine ⟨?_, ?_, ?_, ?_⟩ <;> rw [entry_via_resolve]
  · exact printf_call_lit _ _ _ _ A ap (lit_first_value "ERROR: " F) hA
  · exact printf_call_lit _ _ _ _ A ap (lit_first_value "WARNING: " F) hA
  · exact printf_call_lit _ _ _ _ A ap (lit_first_value "DEBUG: " F) hA
  · exact printf_call_lit _ _ _ _ A ap (by simp [Item.value, lit_concat]) hA

/-- Witness for C7: `ctx_err(ctx, "x=%d\n", 5)` on context 1 calls
`iio_prm_printf` with the format `"ERROR: x=%d\n"` and the argument `5`. -/
theorem entry_points_tag_witness :
    values [[Atom.expr (Arg.int 5)]] = some [Arg.int 5] ∧
      ctx_err sample_env sample_levels (some 1) [[Atom.lit "x=%d\n"], [Atom.expr (Arg.int 5)]] =
        some ⟨sample_env.iio_context_get_params 1, 2, "ERROR: x=%d\n", [Arg.int 5]⟩ :=
  ⟨rfl,
    (entry_points_tag sample_env sample_levels (Entity.context (some 1)) "x=%d\n"
      [[Atom.expr (Arg.int 5)]] [Arg.int 5] rfl).1⟩

/-! ## Formatted output: composition -/

theorem format_output_frame (fmt : List Char) (ap : List Arg) :
    ∀ (r : List Char) (rest extra : List Arg), format_output fmt ap = some (r, rest) →
      format_output fmt (ap ++ extra) = some (r, rest ++ extra) := by
  induction fmt, ap using format_output.induct <;> intro r rest extra h <;>
    rw [format_output.eq_def] at h ⊢ <;> simp_all
  all_goals
    rename_i ih
    obtain ⟨a, h1, h2⟩ := h
    exact ⟨a, ih _ _ _ h1, h2⟩

theorem format_output_append (f1 : List Char) (ap : List Arg) (f2 : List Char) :
    ∀ (r : List Char) (rest : List Arg), format_output f1 ap = some (r, rest) →
      format_output (f1 ++ f2) ap =
        (format_output f2 rest).map fun q => (r ++ q.1, q.2) := by
  induction f1, ap using format_output.induct <;> intro r rest h <;>
    rw [format_output.eq_def] at h <;> simp_all
  all_goals
    rename_i ih
    obtain ⟨a, h1, h2⟩ := h
    subst h2
    rw [format_output.eq_def]
    simp only [ih _ _ h1, Option.map_map]
    simp_all
    try rfl

theorem format_error_tag (ap : List Arg) :
    format_output "ERROR: ".data ap = some ("ERROR: ".data, ap) := rfl

theorem format_suffix (t : String) (c : Int) :
    format_output [':', ' ', '%', 's', ' ', '(', '%', 'u', ')', '\n'] [Arg.str t, Arg.int c] =
      some (':' :: ' ' :: (t.data ++ ' ' :: '(' :: (decimal (as_unsigned c) ++ [')', '\n'])), []) :=
  rfl

theorem format_perror (F r t : String) (ap : List Arg) (c : Int)
    (hF : formats_to F ap r) :
    formats_to ("ERROR: " ++ F ++ ": %s (%u)\n") (ap ++ [Arg.str t, Arg.int c])
      ("ERROR: " ++ r ++ ": " ++ t ++ " (" ++ String.mk (decimal (as_unsigned c)) ++ ")\n") := by
  unfold formats_to at hF ⊢
  have h1 := format_output_frame _ _ _ _ [Arg.str t, Arg.int c] hF
  have h2 := format_output_append _ _ ": %s (%u)\n".data _ _ h1
  have h3 := format_output_append _ (ap ++ [Arg.str t, Arg.int c])
    (F.data ++ ": %s (%u)\n".data) _ _ (format_error_tag _)
  simp only [String.data_append, List.append_assoc]
  rw [h3, h2]
  simp [String.data_append, format_suffix]

theorem values_append_two (A : List Item) (ap : List Arg) (x y : Arg)
    (hA : values A = some ap) :
    values (A ++ [[Atom.expr x], [Atom.expr y]]) = some (ap ++ [x, y]) := by
  induction A generalizing ap with
  | nil =>
    simp only [values] at hA
    cases hA
    rfl
  | cons i r ih =>
    simp only [values] at hA
    split at hA
    · rename_i a as hi hr
      cases hA
      simp [values, hi, ih as hr]
    · cases hA

theorem va_text_cons (i : Item) (r : List Item) : va_text (i :: r) = i :: r := rfl

theorem va_text_snoc (A : List Item) (x : Item) : va_text (A ++ [x]) = A ++ [x] := by
  cases A <;> rfl

theorem prm_perror_call_custom (k : Levels) (params : Option iio_context_params) (c : Int)
    (t F : String) (A : List Item) (ap : List Arg) (hA : values A = some ap) :
    prm_perror_call k params c t ([Atom.lit F] :: A) =
      some ⟨params, k.LEVEL_ERROR, "ERROR: " ++ F ++ ": %s (%u)\n",
        ap ++ [Arg.str t, Arg.int c]⟩ := by
  have hv := values_append_two A ap (Arg.str t) (Arg.int c) hA
  simp only [prm_perror_call, va_text_cons, List.cons_append, __FIRST, __OTHERS, ___OTHERS,
    va_text_snoc, juxtapose, prm_err, List.append_assoc, List.singleton_append]
  exact printf_call_lit _ _ _ _ _ _ (by simp [Item.value, lit_concat, String.append_assoc]) hv

theorem prm_perror_call_bare (k : Levels) (params : Option iio_context_params) (c : Int)
    (t : String) :
    prm_perror_call k params c t [] =
      some ⟨params, k.LEVEL_ERROR, "ERROR: : %s (%u)\n", [Arg.str t, Arg.int c]⟩ := rfl

theorem prm_perror_of_call (env : Env) (k : Levels) (params : Option iio_context_params)
    (err : IntExpr) (va : List Item) (s : State) (a : iio_prm_printf_args)
    (h : prm_perror_call k params (err s).1 (env.iio_strerror (err s).1 _buf_size) va = some a) :
    prm_perror env k params err va s =
      some { a.run env k
              { (err s).2 with
                errno := env.iio_strerror_errno (err s).1 _buf_size (err s).2.errno } with
             errno := (err s).1 } := by
  simp only [prm_perror, h]

theorem decimal_nonneg (c : Int) (h0 : 0 ≤ c) (h1 : c ≤ 2147483647) :
    decimal (as_unsigned c) = signed_decimal c := by
  have hm : c % 4294967296 = c := Int.emod_eq_of_lt h0 (by omega)
  have hn : ¬ c < 0 := by omega
  simp only [as_unsigned, signed_decimal, hm, hn, if_false]
  congr 1
  omega

theorem prm_perror_const (env : Env) (k : Levels) (params : Option iio_context_params)
    (c : Int) (va : List Item) (s : State) (a : iio_prm_printf_args) (o : Stream)
    (h : prm_perror_call k params c (env.iio_strerror c _buf_size) va = some a)
    (hl : a.params = params ∧ a.msg_level = k.LEVEL_ERROR)
    (ho : iio_prm_printf_out k params k.LEVEL_ERROR = some o) :
    (prm_perror env k params (IntExpr.const c) va s).map State.writes =
        some (s.writes ++ [⟨o, a.fmt, a.ap⟩]) ∧
      (prm_perror env k params (IntExpr.const c) va s).map State.last_text =
        some ((format_output a.fmt.data a.ap).map fun r => String.mk r.1) := by
  have hp := prm_perror_of_call env k params (IntExpr.const c) va s a h
  obtain ⟨h1, h2⟩ := hl
  have hw : ∀ s1 : State, (a.run env k s1).writes = s1.writes ++ [⟨o, a.fmt, a.ap⟩] := by
    intro s1
    simp only [iio_prm_printf_args.run, h1, h2]
    rw [iio_prm_printf_of_out env k params _ _ _ s1 o ho]
    rfl
  rw [hp]
  simp only [Option.map_some', IntExpr.const, hw, true_and, Option.some.injEq]
  simp [State.last_text, hw, vfprintf_call.text]

/-! ## The errno-aware family -/

/-- C8, as amended: `prm_perror(params, c, F, A...)` with a custom format `F`
that formats the arguments `A` to the text `r`, when not filtered out, performs
one write whose text is exactly `"ERROR: "`, then `r`, then `": "`, the text
`iio_strerror` left in the buffer, `" ("`, the code as `%u` prints it, and
`")\n"`; for `0 ≤ c ≤ INT_MAX` the number shown is `c` itself.  `ctx_perror`
and `dev_perror` are `prm_perror` on the configuration resolved from the
context or device. -/
theorem prm_perror_output (env : Env) (k : Levels) (params : Option iio_context_params)
    (c : Int) (F : String) (A : List Item) (ap : List Arg) (r : String) (s : State)
    (o : Stream) (hA : values A = some ap) (hF : formats_to F ap r)
    (ho : iio_prm_printf_out k params k.LEVEL_ERROR = some o) :
    (prm_perror env k params (IntExpr.const c) ([Atom.lit F] :: A) s).map State.writes =
        some (s.writes ++ [⟨o, "ERROR: " ++ F ++ ": %s (%u)\n",
          ap ++ [Arg.str (env.iio_strerror c _buf_size), Arg.int c]⟩]) ∧
      (prm_perror env k params (IntExpr.const c) ([Atom.lit F] :: A) s).map State.last_text =
        some (some ("ERROR: " ++ r ++ ": " ++ env.iio_strerror c _buf_size ++ " (" ++
          String.mk (decimal (as_unsigned c)) ++ ")\n")) ∧
      (0 ≤ c → c ≤ 2147483647 →
        (prm_perror env k params (IntExpr.const c) ([Atom.lit F] :: A) s).map State.last_text =
          some (some ("ERROR: " ++ r ++ ": " ++ env.iio_strerror c _buf_size ++ " (" ++
            String.mk (signed_decimal c) ++ ")\n"))) ∧
      (∀ (ctx : Option Nat) (err : IntExpr) (va : List Item),
        ctx_perror env k ctx err va s =
          prm_perror env k (__ctx_params_or_null env ctx) err va s) ∧
      (∀ (dev : Option Nat) (err : IntExpr) (va : List Item),
        dev_perror env k dev err va s =
          prm_perror env k (__ctx_params_or_null env (__dev_ctx_or_null env dev)) err va s) := by
  have hc := prm_perror_call_custom k params c (env.iio_strerror c _buf_size) F A ap hA
  obtain ⟨hw, ht⟩ := prm_perror_const env k params c _ s _ o hc ⟨rfl, rfl⟩ ho
  have hfmt := format_perror F r (env.iio_strerror c _buf_size) ap c hF
  unfold formats_to at hfmt
  have ht2 : (prm_perror env k params (IntExpr.const c) ([Atom.lit F] :: A) s).map
      State.last_text =
        some (some ("ERROR: " ++ r ++ ": " ++ env.iio_strerror c _buf_size ++ " (" ++
          String.mk (decimal (as_unsigned c)) ++ ")\n")) := by
    rw [ht]
    simp only [hfmt, Option.map_some']
  refine ⟨hw, ht2, ?_, fun _ _ _ => rfl, fun _ _ _ => rfl⟩
  intro h0 h1
  rw [ht2, decimal_nonneg c h0 h1]

/-- Witness for C8: `prm_perror(NULL, 13, "failed to open %s", "dev0")` with the
default level `LEVEL_INFO` writes
`"ERROR: failed to open dev0: Permission denied (13)\n"`. -/
theorem prm_perror_output_witness :
    values [[Atom.lit "dev0"]] = some [Arg.str "dev0"] ∧
      formats_to "failed to open %s" [Arg.str "dev0"] "failed to open dev0" ∧
      iio_prm_printf_out sample_levels none sample_levels.LEVEL_ERROR = some Stream.stderr ∧
      (prm_perror sample_env sample_levels none (IntExpr.const 13)
          [[Atom.lit "failed to open %s"], [Atom.lit "dev0"]] ⟨0, []⟩).map State.last_text =
        some (some ("ERROR: " ++ "failed to open dev0" ++ ": " ++
          sample_env.iio_strerror 13 _buf_size ++ " (" ++
          String.mk (decimal (as_unsigned 13)) ++ ")\n")) :=
  ⟨by decide, by decide, by decide,
    (prm_perror_output sample_env sample_levels none 13 "failed to open %s"
      [[Atom.lit "dev0"]] [Arg.str "dev0"] "failed to open dev0" ⟨0, []⟩ Stream.stderr
      (by decide) (by decide) (by decide)).2.1⟩

/-- Counterexample to C8 as stated: with the error text `"Permission denied"`
for code 13, `prm_perror(NULL, 13, "failed to open %s", "dev0")` is not
filtered out and writes `"ERROR: failed to open dev0: Permission denied (13)\n"`,
which is not the text `"failed to open dev0: Permission denied (13)\n"`. -/
theorem prm_perror_output_has_tag :
    sample_env.iio_strerror 13 _buf_size = "Permission denied" ∧
      (prm_perror sample_env sample_levels none (IntExpr.const 13)
          [[Atom.lit "failed to open %s"], [Atom.lit "dev0"]] ⟨0, []⟩).map State.last_text =
        some (some "ERROR: failed to open dev0: Permission denied (13)\n") ∧
      (prm_perror sample_env sample_levels none (IntExpr.const 13)
          [[Atom.lit "failed to open %s"], [Atom.lit "dev0"]] ⟨0, []⟩).map State.last_text ≠
        some (some "failed to open dev0: Permission denied (13)\n") := by
  decide

theorem format_bare (t : String) (c : Int) :
    format_output "ERROR: : %s (%u)\n".data [Arg.str t, Arg.int c] =
      some (("ERROR: " ++ (": " ++ t ++ " (" ++ String.mk (decimal (as_unsigned c)) ++ ")\n")).data,
        []) := by
  have h3 := format_output_append "ERROR: ".data [Arg.str t, Arg.int c]
    [':', ' ', '%', 's', ' ', '(', '%', 'u', ')', '\n'] _ _ (format_error_tag _)
  rw [format_suffix] at h3
  have e1 : "ERROR: : %s (%u)\n".data =
      "ERROR: ".data ++ [':', ' ', '%', 's', ' ', '(', '%', 'u', ')', '\n'] := by decide
  have e2 : ("ERROR: " ++ (": " ++ t ++ " (" ++ String.mk (decimal (as_unsigned c)) ++ ")\n")).data =
      "ERROR: ".data ++ (':' :: ' ' :: (t.data ++ ' ' :: '(' ::
        (decimal (as_unsigned c) ++ [')', '\n']))) := by
    simp [String.data_append]
  rw [e1, e2, h3]
  rfl

/-- C9, as amended: `prm_perror(params, c)` with nothing after the code expands
to the call of `iio_prm_printf` at `LEVEL_ERROR` with the single format literal
`"ERROR: : %s (%u)\n"` and exactly the arguments `[t, c]`, `t` being the text
`iio_strerror` left in the buffer.  When not filtered out it performs one
write, of the text `"ERROR: "` followed by `": "`, `t`, `" ("`, the code as
`%u` prints it, and `")\n"`.  For `0 ≤ c ≤ INT_MAX` the number shown is `c`,
so the text ends in `": t (c)\n"` and only the fixed tag precedes it. -/
theorem prm_perror_bare (env : Env) (k : Levels) (params : Option iio_context_params)
    (c : Int) (s : State) (o : Stream)
    (ho : iio_prm_printf_out k params k.LEVEL_ERROR = some o) :
    prm_perror_call k params c (env.iio_strerror c _buf_size) [] =
        some ⟨params, k.LEVEL_ERROR, "ERROR: : %s (%u)\n",
          [Arg.str (env.iio_strerror c _buf_size), Arg.int c]⟩ ∧
      (prm_perror env k params (IntExpr.const c) [] s).map State.writes =
        some (s.writes ++ [⟨o, "ERROR: : %s (%u)\n",
          [Arg.str (env.iio_strerror c _buf_size), Arg.int c]⟩]) ∧
      (prm_perror env k params (IntExpr.const c) [] s).map State.last_text =
        some (some ("ERROR: " ++ (": " ++ env.iio_strerror c _buf_size ++ " (" ++
          String.mk (decimal (as_unsigned c)) ++ ")\n"))) ∧
      (0 ≤ c → c ≤ 2147483647 →
        (prm_perror env k params (IntExpr.const c) [] s).map State.last_text =
            some (some ("ERROR: " ++ (": " ++ env.iio_strerror c _buf_size ++ " (" ++
              String.mk (signed_decimal c) ++ ")\n"))) ∧
          ends_in
            ("ERROR: " ++ (": " ++ env.iio_strerror c _buf_size ++ " (" ++
              String.mk (signed_decimal c) ++ ")\n"))
            (": " ++ env.iio_strerror c _buf_size ++ " (" ++
              String.mk (signed_decimal c) ++ ")\n")) := by
  have hc := prm_perror_call_bare k params c (env.iio_strerror c _buf_size)
  obtain ⟨hw, ht⟩ := prm_perror_const env k params c _ s _ o hc ⟨rfl, rfl⟩ ho
  have ht2 : (prm_perror env k params (IntExpr.const c) [] s).map State.last_text =
      some (some ("ERROR: " ++ (": " ++ env.iio_strerror c _buf_size ++ " (" ++
        String.mk (decimal (as_unsigned c)) ++ ")\n"))) := by
    rw [ht]
    show some ((format_output "ERROR: : %s (%u)\n".data
      [Arg.str (env.iio_strerror c _buf_size), Arg.int c]).map fun r => String.mk r.1) = _
    rw [format_bare]
    rfl
  refine ⟨hc, hw, ht2, ?_⟩
  intro h0 h1
  refine ⟨?_, ?_⟩
  · rw [ht2, decimal_nonneg c h0 h1]
  · unfold ends_in
    rw [String.data_append]
    exact List.suffix_append _ _

/-- Witness for C9: `prm_perror(NULL, 2)` with the default level `LEVEL_INFO`
writes `"ERROR: : No such file or directory (2)\n"` on `stderr`. -/
theorem prm_perror_bare_witness :
    iio_prm_printf_out sample_levels none sample_levels.LEVEL_ERROR = some Stream.stderr ∧
      (prm_perror sample_env sample_levels none (IntExpr.const 2) [] ⟨0, []⟩).map
          State.last_text =
        some (some ("ERROR: " ++ (": " ++ sample_env.iio_strerror 2 _buf_size ++ " (" ++
          String.mk (decimal (as_unsigned 2)) ++ ")\n"))) :=
  ⟨by decide,
    (prm_perror_bare sample_env sample_levels none 2 ⟨0, []⟩ Stream.stderr
      (by decide)).2.2.1⟩

/-- Counterexample to C9 as stated: for the code `-1`, whose error text is
`"Unknown error"`, `prm_perror(NULL, -1)` is not filtered out and writes
`"ERROR: : Unknown error (4294967295)\n"`, which does not end in
`": Unknown error (-1)\n"`. -/
theorem prm_perror_bare_negative_code :
    sample_env.iio_strerror (-1) _buf_size = "Unknown error" ∧
      iio_prm_printf_out sample_levels none sample_levels.LEVEL_ERROR = some Stream.stderr ∧
      (prm_perror sample_env sample_levels none (IntExpr.const (-1)) [] ⟨0, []⟩).map
          State.last_text =
        some (some "ERROR: : Unknown error (4294967295)\n") ∧
      ¬ ends_in "ERROR: : Unknown error (4294967295)\n" ": Unknown error (-1)\n" := by
  decide

/-- C10: for every custom format `F` and every list `A` of further arguments
with values `ap` (possibly none), the call `prm_perror` makes to
`iio_prm_printf` has the format `"ERROR: " ++ F ++ ": %s (%u)\n"`, in which `F`
is immediately followed by the fixed suffix, and the argument list `ap`
followed by the error text and then the code: nothing is dropped, duplicated or
reordered.  The state after `prm_perror` is the state after that call, with
`errno` set to the code. -/
theorem prm_perror_splitting (env : Env) (k : Levels) (params : Option iio_context_params)
    (c : Int) (F : String) (A : List Item) (ap : List Arg) (s : State)
    (hA : values A = some ap) :
    prm_perror_call k params c (env.iio_strerror c _buf_size) ([Atom.lit F] :: A) =
        some ⟨params, k.LEVEL_ERROR, "ERROR: " ++ F ++ ": %s (%u)\n",
          ap ++ [Arg.str (env.iio_strerror c _buf_size), Arg.int c]⟩ ∧
      prm_perror env k params (IntExpr.const c) ([Atom.lit F] :: A) s =
        some { iio_prm_printf env k params k.LEVEL_ERROR ("ERROR: " ++ F ++ ": %s (%u)\n")
                (ap ++ [Arg.str (env.iio_strerror c _buf_size), Arg.int c])
                { s with errno := env.iio_strerror_errno c _buf_size s.errno } with
               errno := c } := by
  have hc := prm_perror_call_custom k params c (env.iio_strerror c _buf_size) F A ap hA
  refine ⟨hc, ?_⟩
  rw [prm_perror_of_call env k params (IntExpr.const c) _ s _ hc]
  rfl

/-- Witness for C10: `prm_perror(NULL, 13, "open %s: %d", "dev0", 7)` calls
`iio_prm_printf` with the format `"ERROR: open %s: %d: %s (%u)\n"` and the
arguments `"dev0"`, `7`, `"Permission denied"`, `13`. -/
theorem prm_perror_splitting_witness :
    values [[Atom.lit "dev0"], [Atom.expr (Arg.int 7)]] = some [Arg.str "dev0", Arg.int 7] ∧
      prm_perror_call sample_levels none 13 (sample_env.iio_strerror 13 _buf_size)
          [[Atom.lit "open %s: %d"], [Atom.lit "dev0"], [Atom.expr (Arg.int 7)]] =
        some ⟨none, sample_levels.LEVEL_ERROR, "ERROR: " ++ "open %s: %d" ++ ": %s (%u)\n",
          [Arg.str "dev0", Arg.int 7] ++
            [Arg.str (sample_env.iio_strerror 13 _buf_size), Arg.int 13]⟩ :=
  ⟨by decide,
    (prm_perror_splitting sample_env sample_levels none 13 "open %s: %d"
      [[Atom.lit "dev0"], [Atom.expr (Arg.int 7)]] [Arg.str "dev0", Arg.int 7] ⟨0, []⟩
      (by decide)).1⟩

/-! ## Effects of the emission primitive and of the errno-aware family -/

theorem iio_prm_printf_writes (env : Env) (k : Levels) (params : Option iio_context_params)
    (S : Int) (fmt : String) (ap : List Arg) (s : State) :
    (iio_prm_printf env k params S fmt ap s).writes =
      s.writes ++ emitted (iio_prm_printf_out k params S) fmt ap := by
  cases h : iio_prm_printf_out k params S with
  | none => simp [iio_prm_printf_of_none env k params S fmt ap s h, emitted]
  | some o => simp [iio_prm_printf_of_out env k params S fmt ap s o h, emitted, vfprintf]

theorem wrote_emitted (w : List vfprintf_call) (out : Option Stream) (f : String)
    (a : List Arg) (o : Stream) :
    (∃ fmt ap, w ++ emitted out f a = w ++ [⟨o, fmt, ap⟩]) ↔ out = some o := by
  cases out with
  | none => simp [emitted]
  | some o2 =>
    simp only [emitted, List.append_cancel_left_eq, List.cons.injEq, and_true,
      vfprintf_call.mk.injEq, Option.some.injEq]
    constructor
    · rintro ⟨_, _, h, _⟩; exact h
    · intro h; exact ⟨f, a, h, rfl, rfl⟩

theorem prm_perror_call_level (k : Levels) (params : Option iio_context_params) (c : Int)
    (t : String) (va : List Item) (a : iio_prm_printf_args)
    (h : prm_perror_call k params c t va = some a) :
    a.params = params ∧ a.msg_level = k.LEVEL_ERROR := by
  simp only [prm_perror_call] at h
  split at h
  · exact printf_call_params _ _ _ _ h
  · cases h

theorem prm_perror_inv (env : Env) (k : Levels) (params : Option iio_context_params)
    (err : IntExpr) (va : List Item) (s s2 : State)
    (h : prm_perror env k params err va s = some s2) :
    ∃ a, prm_perror_call k params (err s).1 (env.iio_strerror (err s).1 _buf_size) va = some a ∧
      s2.errno = (err s).1 ∧
      s2.writes = (err s).2.writes ++
        emitted (iio_prm_printf_out k params k.LEVEL_ERROR) a.fmt a.ap := by
  cases hc : prm_perror_call k params (err s).1 (env.iio_strerror (err s).1 _buf_size) va with
  | none => simp [prm_perror, hc] at h
  | some a =>
    rw [prm_perror_of_call env k params err va s a hc] at h
    obtain ⟨h1, h2⟩ := prm_perror_call_level k params _ _ va a hc
    cases h
    refine ⟨a, rfl, rfl, ?_⟩
    simp only [iio_prm_printf_args.run, iio_prm_printf_writes, h1, h2]

/-- C11: for every configuration, present or absent, and every code `c`,
`prm_perror` with a custom format, or with nothing after the code, completes,
and on completion `errno` equals `c`; this holds for every completed call,
whether the message was written or filtered out (then the trace of writes is
unchanged and `errno` is still `c`), and likewise for `ctx_perror` and
`dev_perror`. -/
theorem perror_sets_errno (env : Env) (k : Levels) (params : Option iio_context_params)
    (c : Int) (F : String) (A : List Item) (ap : List Arg) (s : State)
    (hA : values A = some ap) :
    (∃ s2, prm_perror env k params (IntExpr.const c) ([Atom.lit F] :: A) s = some s2 ∧
        s2.errno = c) ∧
      (∃ s2, prm_perror env k params (IntExpr.const c) [] s = some s2 ∧ s2.errno = c) ∧
      (∀ (va : List Item) (s2 : State),
        prm_perror env k params (IntExpr.const c) va s = some s2 →
          s2.errno = c ∧
          (iio_prm_printf_out k params k.LEVEL_ERROR = none → s2.writes = s.writes)) ∧
      (∀ ctx : Option Nat,
        (∃ s2, ctx_perror env k ctx (IntExpr.const c) ([Atom.lit F] :: A) s = some s2 ∧
          s2.errno = c) ∧
        ∀ (va : List Item) (s2 : State),
          ctx_perror env k ctx (IntExpr.const c) va s = some s2 → s2.errno = c) ∧
      (∀ dev : Option Nat,
        (∃ s2, dev_perror env k dev (IntExpr.const c) ([Atom.lit F] :: A) s = some s2 ∧
          s2.errno = c) ∧
        ∀ (va : List Item) (s2 : State),
          dev_perror env k dev (IntExpr.const c) va s = some s2 → s2.errno = c) := by
  have hex : ∀ p : Option iio_context_params,
      ∃ s2, prm_perror env k p (IntExpr.const c) ([Atom.lit F] :: A) s = some s2 ∧
        s2.errno = c := by
    intro p
    have hc := prm_perror_call_custom k p c (env.iio_strerror c _buf_size) F A ap hA
    exact ⟨_, prm_perror_of_call env k p (IntExpr.const c) _ s _ hc, rfl⟩
  have hall : ∀ (p : Option iio_context_params) (va : List Item) (s2 : State),
      prm_perror env k p (IntExpr.const c) va s = some s2 → s2.errno = c := by
    intro p va s2 h
    obtain ⟨a, _, he, _⟩ := prm_perror_inv env k p _ va s s2 h
    exact he
  refine ⟨hex params, ?_, ?_, ?_, ?_⟩
  · have hc := prm_perror_call_bare k params c (env.iio_strerror c _buf_size)
    exact ⟨_, prm_perror_of_call env k params (IntExpr.const c) _ s _ hc, rfl⟩
  · intro va s2 h
    obtain ⟨a, _, he, hw⟩ := prm_perror_inv env k params _ va s s2 h
    refine ⟨he, fun hn => ?_⟩
    rw [hw, hn]
    simp [emitted, IntExpr.const]
  · intro ctx
    exact ⟨hex _, hall _⟩
  · intro dev
    exact ⟨hex _, hall _⟩

/-- Witness for C11: under a configuration whose `log_level` (1) filters out
the error severity (2), `prm_perror(params, 13, "x")` writes nothing and leaves
`errno` equal to 13. -/
theorem perror_sets_errno_witness :
    values [] = some [] ∧
      iio_prm_printf_out sample_levels (some ⟨none, none, 1, 1⟩) sample_levels.LEVEL_ERROR =
        none ∧
      prm_perror sample_env sample_levels (some ⟨none, none, 1, 1⟩) (IntExpr.const 13)
          [[Atom.lit "x"]] ⟨0, []⟩ = some ⟨13, []⟩ ∧
      ∀ s2 : State,
        prm_perror sample_env sample_levels (some ⟨none, none, 1, 1⟩) (IntExpr.const 13)
            [[Atom.lit "x"]] ⟨0, []⟩ = some s2 →
          s2.errno = 13 ∧
          (iio_prm_printf_out sample_levels (some ⟨none, none, 1, 1⟩)
              sample_levels.LEVEL_ERROR = none → s2.writes = []) :=
  ⟨rfl, by decide, by decide,
    (perror_sets_errno sample_env sample_levels (some ⟨none, none, 1, 1⟩) 13 "x" [] []
      ⟨0, []⟩ rfl).2.2.1 [[Atom.lit "x"]]⟩

/-- C13: `prm_perror` emits at error severity.  For every configuration
(present or absent) and code `c`, a completed `prm_perror(params, c, ...)`
performs a write on a stream exactly when a completed `prm_err(params, ...)`
performs one on that stream, namely exactly when `out` is that stream for
`LEVEL_ERROR`: written iff `LEVEL_ERROR ≤ C.log_level` with `C` present, iff
`LEVEL_ERROR ≤ DEFAULT_LOG_LEVEL` without configuration.  `ctx_perror` and
`dev_perror` are `prm_perror` on the configuration `ctx_err` and `dev_err`
hand to `prm_err`. -/
theorem perror_emits_as_err (env : Env) (k : Levels) (params : Option iio_context_params)
    (c : Int) (va va2 : List Item) (s sp se : State)
    (hp : prm_perror env k params (IntExpr.const c) va s = some sp)
    (he : exec env k (prm_err k params va2) s = some se) :
    (∀ o : Stream,
        (∃ fmt ap, wrote_on s sp o fmt ap) ↔ (∃ fmt ap, wrote_on s se o fmt ap)) ∧
      (∀ o : Stream,
        (∃ fmt ap, wrote_on s sp o fmt ap) ↔
          iio_prm_printf_out k params k.LEVEL_ERROR = some o) ∧
      (sp.writes = s.writes ↔ se.writes = s.writes) ∧
      (∀ C : iio_context_params, params = some C →
        ((∃ o fmt ap, wrote_on s sp o fmt ap) ↔ k.LEVEL_ERROR ≤ C.log_level)) ∧
      (params = none →
        ((∃ o fmt ap, wrote_on s sp o fmt ap) ↔ k.LEVEL_ERROR ≤ k.DEFAULT_LOG_LEVEL)) ∧
      (∀ ctx : Option Nat,
        ctx_perror env k ctx = prm_perror env k (__ctx_params_or_null env ctx) ∧
        ctx_err env k ctx = prm_err k (__ctx_params_or_null env ctx)) ∧
      (∀ dev : Option Nat,
        dev_perror env k dev =
          prm_perror env k (__ctx_params_or_null env (__dev_ctx_or_null env dev)) ∧
        dev_err env k dev =
          prm_err k (__ctx_params_or_null env (__dev_ctx_or_null env dev))) := by
  obtain ⟨a, _, _, hwp⟩ := prm_perror_inv env k params _ va s sp hp
  have hwe : ∃ a2 : iio_prm_printf_args, se.writes = s.writes ++
      emitted (iio_prm_printf_out k params k.LEVEL_ERROR) a2.fmt a2.ap := by
    cases hc : prm_err k params va2 with
    | none => simp [exec, hc] at he
    | some a2 =>
      obtain ⟨h1, h2⟩ := printf_call_params _ _ _ _ hc
      simp only [exec, hc, Option.map_some', Option.some.injEq] at he
      subst he
      exact ⟨a2, by simp only [iio_prm_printf_args.run, iio_prm_printf_writes, h1, h2]⟩
  obtain ⟨a2, hwe⟩ := hwe
  simp only [IntExpr.const] at hwp
  have hP : ∀ o : Stream, (∃ fmt ap, wrote_on s sp o fmt ap) ↔
      iio_prm_printf_out k params k.LEVEL_ERROR = some o := by
    intro o
    simp only [wrote_on, hwp]
    exact wrote_emitted _ _ _ _ o
  have hE : ∀ o : Stream, (∃ fmt ap, wrote_on s se o fmt ap) ↔
      iio_prm_printf_out k params k.LEVEL_ERROR = some o := by
    intro o
    simp only [wrote_on, hwe]
    exact wrote_emitted _ _ _ _ o
  refine ⟨fun o => (hP o).trans (hE o).symm, hP, ?_, ?_, ?_, fun _ => ⟨rfl, rfl⟩,
    fun _ => ⟨rfl, rfl⟩⟩
  · rw [hwp, hwe]
    cases iio_prm_printf_out k params k.LEVEL_ERROR <;> simp [emitted]
  · intro C hC
    subst hC
    simp only [hP, out_present]
    by_cases h : k.LEVEL_ERROR ≤ C.log_level <;> simp [h]
  · intro hn
    subst hn
    simp only [hP, out_absent]
    by_cases h : k.LEVEL_ERROR ≤ k.DEFAULT_LOG_LEVEL <;> simp [h]

/-- Witness for C13: under the configuration of context 1 (`log_level` 3,
`stderr_level` 2, `err` set to stream 7) both `prm_perror(params, 13, "x")` and
`prm_err(params, "y")` complete, and the former writes on stream 7 exactly when
the latter does. -/
theorem perror_emits_as_err_witness :
    prm_perror sample_env sample_levels (sample_env.iio_context_get_params 1)
        (IntExpr.const 13) [[Atom.lit "x"]] ⟨0, []⟩ =
      some ⟨13, [⟨Stream.file 7, "ERROR: x: %s (%u)\n",
        [Arg.str "Permission denied", Arg.int 13]⟩]⟩ ∧
    exec sample_env sample_levels
        (prm_err sample_levels (sample_env.iio_context_get_params 1) [[Atom.lit "y"]])
        ⟨0, []⟩ =
      some ⟨0, [⟨Stream.file 7, "ERROR: y", []⟩]⟩ ∧
    ((∃ fmt ap, wrote_on ⟨0, []⟩
        ⟨13, [⟨Stream.file 7, "ERROR: x: %s (%u)\n",
          [Arg.str "Permission denied", Arg.int 13]⟩]⟩ (Stream.file 7) fmt ap) ↔
      (∃ fmt ap, wrote_on ⟨0, []⟩ ⟨0, [⟨Stream.file 7, "ERROR: y", []⟩]⟩
        (Stream.file 7) fmt ap)) :=
  ⟨by decide, by decide,
    (perror_emits_as_err sample_env sample_levels (sample_env.iio_context_get_params 1) 13
      [[Atom.lit "x"]] [[Atom.lit "y"]] ⟨0, []⟩ _ _ (by decide) (by decide)).1
      (Stream.file 7)⟩

/-- C14: a call of `iio_prm_printf` adds to the trace of writes exactly the
writes determined by `out`: none, or one write on one stream; two descriptions
of what it wrote name the same stream; and when the filter condition fails
(`out` stays `NULL`: the severity exceeds `log_level`, or `DEFAULT_LOG_LEVEL`
without configuration) the state is left as it was. -/
theorem iio_prm_printf_single_write (env : Env) (k : Levels)
    (params : Option iio_context_params) (S : Int) (fmt : String) (ap : List Arg)
    (s : State) :
    (iio_prm_printf env k params S fmt ap s).writes =
        s.writes ++ emitted (iio_prm_printf_out k params S) fmt ap ∧
      (iio_prm_printf env k params S fmt ap s).writes.length ≤ s.writes.length + 1 ∧
      ((iio_prm_printf env k params S fmt ap s).writes = s.writes ∨
        ∃ o, wrote_on s (iio_prm_printf env k params S fmt ap s) o fmt ap) ∧
      (∀ (o1 o2 : Stream) (f1 f2 : String) (a1 a2 : List Arg),
        wrote_on s (iio_prm_printf env k params S fmt ap s) o1 f1 a1 →
        wrote_on s (iio_prm_printf env k params S fmt ap s) o2 f2 a2 → o1 = o2) ∧
      (iio_prm_printf_out k params S = none → iio_prm_printf env k params S fmt ap s = s) ∧
      (∀ C : iio_context_params, params = some C → ¬ S ≤ C.log_level →
        iio_prm_printf env k params S fmt ap s = s) ∧
      (params = none → ¬ S ≤ k.DEFAULT_LOG_LEVEL →
        iio_prm_printf env k params S fmt ap s = s) := by
  have hw := iio_prm_printf_writes env k params S fmt ap s
  refine ⟨hw, ?_, ?_, ?_, ?_, ?_, ?_⟩
  · rw [hw]
    cases iio_prm_printf_out k params S <;> simp [emitted]
  · cases h : iio_prm_printf_out k params S with
    | none => left; rw [hw, h]; simp [emitted]
    | some o => right; exact ⟨o, by unfold wrote_on; rw [hw, h]; rfl⟩
  · intro o1 o2 f1 f2 a1 a2 h1 h2
    unfold wrote_on at h1 h2
    rw [h1] at h2
    simp only [List.append_cancel_left_eq, List.cons.injEq, and_true,
      vfprintf_call.mk.injEq] at h2
    exact h2.1
  · intro h
    exact iio_prm_printf_of_none env k params S fmt ap s h
  · intro C hC hS
    subst hC
    apply iio_prm_printf_of_none
    rw [out_present, if_neg hS]
  · intro hn hS
    subst hn
    apply iio_prm_printf_of_none
    rw [out_absent, if_neg hS]

/-- C12 (the code departs from it): `chn_perror` never uses its first argument.
With channel 3 as the argument (whose context 1 routes errors to stream 7, as
`chn_err` on channel 3 does) and a `NULL` object named `chn` in the caller's
scope, the message goes to `stderr` under the default thresholds; with no
object named `chn` in scope the expansion is not valid C; and in general the
result is the same for every first argument. -/
theorem chn_perror_uses_scope_chn :
    (chn_perror sample_env sample_levels (some none) (some 3) (IntExpr.const 13)
        [[Atom.lit "x"]] ⟨0, []⟩).map State.writes =
      some [⟨Stream.stderr, "ERROR: x: %s (%u)\n",
        [Arg.str "Permission denied", Arg.int 13]⟩] ∧
    (exec sample_env sample_levels
        (chn_err sample_env sample_levels (some 3) [[Atom.lit "x"]]) ⟨0, []⟩).map
        State.writes =
      some [⟨Stream.file 7, "ERROR: x", []⟩] ∧
    (chn_perror sample_env sample_levels (some (some 3)) (some 3) (IntExpr.const 13)
        [[Atom.lit "x"]] ⟨0, []⟩).map State.writes =
      some [⟨Stream.file 7, "ERROR: x: %s (%u)\n",
        [Arg.str "Permission denied", Arg.int 13]⟩] ∧
    chn_perror sample_env sample_levels none (some 3) (IntExpr.const 13)
        [[Atom.lit "x"]] ⟨0, []⟩ = none ∧
    ∀ (env : Env) (k : Levels) (scope_chn : Option (Option Nat)) (d1 d2 : Option Nat)
      (err : IntExpr) (va : List Item) (s : State),
      chn_perror env k scope_chn d1 err va s = chn_perror env k scope_chn d2 err va s :=
  ⟨by decide, by decide, by decide, by decide, fun _ _ _ _ _ _ _ _ => rfl⟩

/-- C15: a call of `iio_prm_printf` on a pointer to a configuration leaves
every configuration object in memory as it was, so the fields `log_level`,
`stderr_level`, `err` and `out` are unchanged; its effect on the observable
state is that of `iio_prm_printf` on the value the pointer designates, which is
the call every entry point makes. -/
theorem iio_prm_printf_ptr_frame (env : Env) (k : Levels) (params : Option Nat) (S : Int)
    (fmt : String) (ap : List Arg) (m : Memory) :
    (iio_prm_printf_ptr env k params S fmt ap m).configs = m.configs ∧
      (∀ a : Nat,
        ((iio_prm_printf_ptr env k params S fmt ap m).configs a).log_level =
            (m.configs a).log_level ∧
          ((iio_prm_printf_ptr env k params S fmt ap m).configs a).stderr_level =
            (m.configs a).stderr_level ∧
          ((iio_prm_printf_ptr env k params S fmt ap m).configs a).err = (m.configs a).err ∧
          ((iio_prm_printf_ptr env k params S fmt ap m).configs a).out = (m.configs a).out) ∧
      (iio_prm_printf_ptr env k params S fmt ap m).st =
        iio_prm_printf env k (params.map m.configs) S fmt ap m.st ∧
      ∀ (sev : Severity) (e : Entity) (va : List Item) (c : iio_prm_printf_args) (a : Nat),
        Entity.entry env k sev e va = some c → c.params = some (m.configs a) →
          (iio_prm_printf_ptr env k (some a) c.msg_level c.fmt c.ap m).configs = m.configs ∧
          (iio_prm_printf_ptr env k (some a) c.msg_level c.fmt c.ap m).st =
            c.run env k m.st := by
  have hc : ∀ (p : Option Nat) (l : Int) (f : String) (as : List Arg),
      (iio_prm_printf_ptr env k p l f as m).configs = m.configs := by
    intro p l f as
    simp only [iio_prm_printf_ptr]
    split <;> rfl
  have hs : ∀ (p : Option Nat) (l : Int) (f : String) (as : List Arg),
      (iio_prm_printf_ptr env k p l f as m).st =
        iio_prm_printf env k (p.map m.configs) l f as m.st := by
    intro p l f as
    cases p with
    | none =>
      simp only [iio_prm_printf_ptr, iio_prm_printf, iio_prm_printf_out, Option.map_none']
      split <;> rfl
    | some a =>
      simp only [iio_prm_printf_ptr, iio_prm_printf, iio_prm_printf_out, Option.map_some']
      split <;> rfl
  refine ⟨hc _ _ _ _, ?_, hs _ _ _ _, ?_⟩
  · intro a
    rw [hc]
    exact ⟨rfl, rfl, rfl, rfl⟩
  · intro sev e va c a _ hp
    refine ⟨hc _ _ _ _, ?_⟩
    rw [hs]
    simp only [iio_prm_printf_args.run, hp, Option.map_some']

theorem clobbering_env_bounded (code : Int) (len : Nat) (h : 0 < len) :
    stored_bytes (clobbering_env.iio_strerror code len) ≤ len := by
  simp only [stored_bytes, clobbering_env, String.length, List.length_take,
    List.length_replicate]
  omega

/-- C16: `prm_perror` hands `iio_strerror` the capacity `sizeof(_buf)`, which is
1024, the size of the buffer it declares, and consults it at no other
capacity (collaborators that agree at that capacity give the same result); so
with a collaborator that stores at most `capacity` bytes whatever the
description, the text and its terminator take at most 1024 bytes of `_buf`. -/
theorem prm_perror_buffer_bound (env : Env) (k : Levels)
    (params : Option iio_context_params) (err : IntExpr) (va : List Item) (s : State)
    (hcap : ∀ (code : Int) (len : Nat), 0 < len →
      stored_bytes (env.iio_strerror code len) ≤ len) :
    _buf_size = 1024 ∧
      stored_bytes (env.iio_strerror (err s).1 _buf_size) ≤ 1024 ∧
      ∀ env2 : Env,
        (∀ code : Int, env2.iio_strerror code _buf_size = env.iio_strerror code _buf_size) →
        (∀ (code e : Int),
          env2.iio_strerror_errno code _buf_size e = env.iio_strerror_errno code _buf_size e) →
        env2.vfprintf_errno = env.vfprintf_errno →
          prm_perror env2 k params err va s = prm_perror env k params err va s := by
  have hb : stored_bytes (env.iio_strerror (err s).1 _buf_size) ≤ 1024 :=
    hcap _ _buf_size (by decide)
  refine ⟨rfl, hb, ?_⟩
  · intro env2 h1 h2 h3
    simp only [prm_perror, h1, h2, iio_prm_printf_args.run, iio_prm_printf, vfprintf, h3]

/-- Witness for C16: a collaborator whose description has 5000 characters and
which truncates it to the capacity stores 1024 bytes into `_buf`. -/
theorem prm_perror_buffer_bound_witness :
    (∀ (code : Int) (len : Nat), 0 < len →
        stored_bytes (clobbering_env.iio_strerror code len) ≤ len) ∧
      stored_bytes (clobbering_env.iio_strerror 13 _buf_size) ≤ 1024 :=
  ⟨clobbering_env_bounded,
    (prm_perror_buffer_bound clobbering_env sample_levels none (IntExpr.const 13)
      [[Atom.lit "x"]] ⟨0, []⟩ clobbering_env_bounded).2.1⟩

/-- C17: the emission decision is monotone in urgency.  For every
configuration, present or absent, and severities `S2 ≤ S`: if a message at `S`
is written then a message at `S2` is written, and if the message at `S` is
written on the error sink (`err` or `stderr` with a configuration, `stderr`
without) then so is the message at `S2`. -/
theorem emission_monotone (env : Env) (k : Levels) (params : Option iio_context_params)
    (S S2 : Int) (fmt : String) (ap : List Arg) (s : State) (h : S2 ≤ S) :
    ((∃ o, wrote_on s (iio_prm_printf env k params S fmt ap s) o fmt ap) →
        ∃ o, wrote_on s (iio_prm_printf env k params S2 fmt ap s) o fmt ap) ∧
      (∀ C : iio_context_params, params = some C →
        (S ≤ C.log_level → S ≤ C.stderr_level → S2 ≤ C.log_level ∧ S2 ≤ C.stderr_level) ∧
        (wrote_on s (iio_prm_printf env k params S fmt ap s) (error_sink C) fmt ap →
          wrote_on s (iio_prm_printf env k params S2 fmt ap s) (error_sink C) fmt ap)) ∧
      (params = none →
        (wrote_on s (iio_prm_printf env k params S fmt ap s) Stream.stderr fmt ap →
          wrote_on s (iio_prm_printf env k params S2 fmt ap s) Stream.stderr fmt ap)) := by
  refine ⟨?_, ?_, ?_⟩
  · simp only [wrote_on_iff]
    cases params with
    | none =>
      simp only [out_absent]
      intro ⟨o, ho⟩
      have hS : S ≤ k.DEFAULT_LOG_LEVEL := by
        by_contra hn
        simp [hn] at ho
      have hS2 : S2 ≤ k.DEFAULT_LOG_LEVEL := by omega
      simp [hS2]
    | some C =>
      simp only [out_present]
      intro ⟨o, ho⟩
      have hS : S ≤ C.log_level := by
        by_contra hn
        simp [hn] at ho
      have hS2 : S2 ≤ C.log_level := by omega
      simp [hS2]
  · intro C hC
    subst hC
    refine ⟨fun h1 h2 => ⟨by omega, by omega⟩, ?_⟩
    simp only [wrote_on_iff, out_present]
    intro ho
    have hS : S ≤ C.log_level := by
      by_contra hn
      simp [hn] at ho
    have hS2 : S2 ≤ C.log_level := by omega
    simp only [hS, hS2, if_true, Option.some.injEq] at ho ⊢
    by_cases h1 : S ≤ C.stderr_level
    · have h2 : S2 ≤ C.stderr_level := by omega
      simp [h2]
    · simp only [h1, if_false] at ho
      by_cases h2 : S2 ≤ C.stderr_level
      · simp [h2]
      · simp [h2, ho]
  · intro hn
    subst hn
    simp only [wrote_on_iff, out_absent]
    intro ho
    have hS : S ≤ k.DEFAULT_LOG_LEVEL := by
      by_contra hn
      simp [hn] at ho
    have hS2 : S2 ≤ k.DEFAULT_LOG_LEVEL := by omega
    simp only [hS, hS2, if_true, Option.some.injEq] at ho ⊢
    have h1 : S ≤ k.LEVEL_WARNING := by
      by_contra hn
      simp [hn] at ho
    have h2 : S2 ≤ k.LEVEL_WARNING := by omega
    simp [h2]

/-- Witness for C17: without configuration a warning (3) is written on
`stderr`, hence so is an error (2). -/
theorem emission_monotone_witness :
    (2 : Int) ≤ 3 ∧
      wrote_on ⟨0, []⟩ (iio_prm_printf sample_env sample_levels none 3 "x" [] ⟨0, []⟩)
        Stream.stderr "x" [] ∧
      wrote_on ⟨0, []⟩ (iio_prm_printf sample_env sample_levels none 2 "x" [] ⟨0, []⟩)
        Stream.stderr "x" [] :=
  ⟨by decide, by decide,
    (emission_monotone sample_env sample_levels none 3 2 "x" [] ⟨0, []⟩ (by decide)).2.2 rfl
      (by decide)⟩

/-- C18: the number `prm_perror` prints is the code read as an unsigned 32-bit
value.  For a code `c` in the range of `int`, a custom format `F` that formats
its arguments to `r`, and a message that is not filtered out, the text written
is `"ERROR: "`, `r`, `": "`, the error text, `" ("`, the decimal digits of
`c mod 2^32`, `")\n"` (and likewise with nothing after the code); that number
equals `c` exactly when `c ≥ 0`, and for a negative code `-n` it is
`2^32 - n`. -/
theorem perror_prints_unsigned (env : Env) (k : Levels) (params : Option iio_context_params)
    (c : Int) (F : String) (A : List Item) (ap : List Arg) (r : String) (s : State)
    (o : Stream) (hA : values A = some ap) (hF : formats_to F ap r)
    (ho : iio_prm_printf_out k params k.LEVEL_ERROR = some o)
    (hlo : -2147483648 ≤ c) (hhi : c ≤ 2147483647) :
    (prm_perror env k params (IntExpr.const c) ([Atom.lit F] :: A) s).map State.last_text =
        some (some ("ERROR: " ++ r ++ ": " ++ env.iio_strerror c _buf_size ++ " (" ++
          String.mk (decimal (as_unsigned c)) ++ ")\n")) ∧
      (prm_perror env k params (IntExpr.const c) [] s).map State.last_text =
        some (some ("ERROR: " ++ (": " ++ env.iio_strerror c _buf_size ++ " (" ++
          String.mk (decimal (as_unsigned c)) ++ ")\n"))) ∧
      (as_unsigned c : Int) = c % 4294967296 ∧
      ((as_unsigned c : Int) = c ↔ 0 ≤ c) ∧
      ∀ n : Nat, 0 < n → c = -(n : Int) → as_unsigned c = 4294967296 - n := by
  have hc := prm_perror_call_custom k params c (env.iio_strerror c _buf_size) F A ap hA
  obtain ⟨_, ht⟩ := prm_perror_const env k params c _ s _ o hc ⟨rfl, rfl⟩ ho
  have hfmt := format_perror F r (env.iio_strerror c _buf_size) ap c hF
  unfold formats_to at hfmt
  have hb := prm_perror_call_bare k params c (env.iio_strerror c _buf_size)
  obtain ⟨_, htb⟩ := prm_perror_const env k params c _ s _ o hb ⟨rfl, rfl⟩ ho
  refine ⟨?_, ?_, ?_, ?_, ?_⟩
  · rw [ht]
    simp only [hfmt, Option.map_some']
  · rw [htb]
    show some ((format_output "ERROR: : %s (%u)\n".data
      [Arg.str (env.iio_strerror c _buf_size), Arg.int c]).map fun q => String.mk q.1) = _
    rw [format_bare]
    rfl
  · unfold as_unsigned
    omega
  · unfold as_unsigned
    omega
  · intro n hn hcn
    unfold as_unsigned
    omega

/-- Witness for C18: `prm_perror(NULL, -22, "x")` with the default level
`LEVEL_INFO` writes `"ERROR: x: Unknown error (4294967274)\n"`, and
`4294967274` is `2^32 - 22`. -/
theorem perror_prints_unsigned_witness :
    (prm_perror sample_env sample_levels none (IntExpr.const (-22)) [[Atom.lit "x"]]
        ⟨0, []⟩).map State.last_text =
      some (some "ERROR: x: Unknown error (4294967274)\n") ∧
    (prm_perror sample_env sample_levels none (IntExpr.const (-22)) [[Atom.lit "x"]]
        ⟨0, []⟩).map State.last_text =
      some (some ("ERROR: " ++ "x" ++ ": " ++ sample_env.iio_strerror (-22) _buf_size ++
        " (" ++ String.mk (decimal (as_unsigned (-22))) ++ ")\n")) ∧
    as_unsigned (-22) = 4294967296 - 22 :=
  ⟨by decide,
    (perror_prints_unsigned sample_env sample_levels none (-22) "x" [] [] "x" ⟨0, []⟩
      Stream.stderr (by decide) (by decide) (by decide) (by decide) (by decide)).1,
    (perror_prints_unsigned sample_env sample_levels none (-22) "x" [] [] "x" ⟨0, []⟩
      Stream.stderr (by decide) (by decide) (by decide) (by decide) (by decide)).2.2.2.2
      22 (by decide) (by decide)⟩

/-- C19: in `prm_perror` the assignment of `errno` is the last effect.  When
the expansion is valid C the call completes in the state reached by the
`prm_err` call with `errno` overwritten by the value of `err`, so `errno`
equals that value whatever `iio_strerror` and `vfprintf` left in `errno`; and
`err` is evaluated exactly once: the call is the same as evaluating `err`
first and then running `prm_perror` on its value in the state `err` left. -/
theorem perror_errno_last (env : Env) (k : Levels) (params : Option iio_context_params)
    (err : IntExpr) (va : List Item) (s : State) (a : iio_prm_printf_args)
    (hcall : prm_perror_call k params (err s).1 (env.iio_strerror (err s).1 _buf_size) va =
      some a) :
    prm_perror env k params err va s =
        some { a.run env k
                { (err s).2 with
                  errno := env.iio_strerror_errno (err s).1 _buf_size (err s).2.errno } with
               errno := (err s).1 } ∧
      (∀ s2 : State, prm_perror env k params err va s = some s2 →
        s2.errno = (err s).1 ∧
        s2.writes = (err s).2.writes ++
          emitted (iio_prm_printf_out k params k.LEVEL_ERROR) a.fmt a.ap) ∧
      prm_perror env k params err va s =
        prm_perror env k params (IntExpr.const (err s).1) va (err s).2 := by
  have hp := prm_perror_of_call env k params err va s a hcall
  refine ⟨hp, ?_, ?_⟩
  · intro s2 h2
    obtain ⟨a2, ha2, he, hw⟩ := prm_perror_inv env k params err va s s2 h2
    rw [hcall] at ha2
    cases ha2
    exact ⟨he, hw⟩
  · rw [hp]
    exact (prm_perror_of_call env k params (IntExpr.const (err s).1) va (err s).2 a hcall).symm

/-- Witness for C19: with collaborators that overwrite `errno` (with 34 and 9)
and an `err` expression that reads `errno` (5) and itself performs a write,
`prm_perror(NULL, err, "x")` ends with `errno` equal to 5 and a trace holding
the one write of `err` followed by the one write of the message. -/
theorem perror_errno_last_witness :
    (prm_perror clobbering_env sample_levels none
        (fun s => (s.errno, { s with writes := s.writes ++ [⟨Stream.stdout, "e", []⟩] }))
        [[Atom.lit "x"]] ⟨5, []⟩).map State.errno = some 5 ∧
    (prm_perror clobbering_env sample_levels none
        (fun s => (s.errno, { s with writes := s.writes ++ [⟨Stream.stdout, "e", []⟩] }))
        [[Atom.lit "x"]] ⟨5, []⟩).map (fun s2 => s2.writes.map vfprintf_call.out) =
      some [Stream.stdout, Stream.stderr] :=
  ⟨by
    rw [(perror_errno_last clobbering_env sample_levels none
      (fun s => (s.errno, { s with writes := s.writes ++ [⟨Stream.stdout, "e", []⟩] }))
      [[Atom.lit "x"]] ⟨5, []⟩ _
      (prm_perror_call_custom sample_levels none _ _ "x" [] [] rfl)).1]
    rfl,
   by decide⟩

end IioDebug
